import Mathlib

/-!
# GuessTheColor: software timers and the game state machine

A shallow embedding of `HAL/Timer.c`, `HAL/LED.c` and `App_GuessTheColor.c`.

* Unsigned 64-bit values are natural numbers; every result that the C code stores
  in a `uint64_t` is reduced modulo `2 ^ 64` by `toU64`.
* The hardware (the Timer32 down-counter and the rollover count kept by the
  interrupt handler) is an explicit reading `HwReading` handed to each operation.
* Stateful functions take the structures they mutate and return the new ones.
* The display is an output trace of the commands issued to it.
-/

namespace GuessTheColor

/-! ## Machine integers -/

/-- Conversion of an integer to `uint64_t`: reduction modulo `2 ^ 64`. -/
def toU64 (z : Int) : Nat := (z % (2 ^ 64 : Int)).toNat

/-- Conversion of an integer to `uint32_t`: reduction modulo `2 ^ 32`. -/
def toU32 (z : Int) : Nat := (z % (2 ^ 32 : Int)).toNat

/-- Addition of two `uint64_t` values. -/
def add64 (a b : Nat) : Nat := toU64 ((a : Int) + (b : Int))

/-- Subtraction of two `uint64_t` values. -/
def sub64 (a b : Nat) : Nat := toU64 ((a : Int) - (b : Int))

/-- Multiplication of two `uint64_t` values. -/
def mul64 (a b : Nat) : Nat := toU64 ((a : Int) * (b : Int))

/-! ## HAL/Timer.c -/

/-- The macros of `HAL/Timer.h`. That header is not among the sources, so the values
are parameters. `LOADVALUE + 1` is taken as the exact sum (the macro's own C type
is not known); a zero `PRESCALER` or division factor is not a well-formed header. -/
structure TimerConfig where
  SYSTEM_CLOCK : Nat
  PRESCALER : Nat
  LOADVALUE : Nat
  MS_DIVISION_FACTOR : Nat
  US_DIVISION_FACTOR : Nat
  deriving DecidableEq

/-- One sample of the timing hardware: `Timer32_getValue(TIMER32_0_BASE)` and the
value of the global `hwTimerRollovers`. -/
structure HwReading where
  counter : Nat
  rollovers : Nat
  deriving DecidableEq

/-- The struct `SWTimer`; the three members are the ones `Timer.c` reads and writes. -/
structure SWTimer where
  cyclesToWait : Nat
  startCounter : Nat
  startRollovers : Nat
  deriving DecidableEq

/-- The interrupt handler `T32_INT1_IRQHandler`, acting on `hwTimerRollovers`
(a `uint64_t`). Clearing the interrupt flag is a hardware effect outside the model. -/
def T32_INT1_IRQHandler (hwTimerRollovers : Nat) : Nat :=
  add64 hwTimerRollovers 1

/-- The local `counterClock` of `SWTimer_construct` and `SWTimer_elapsedTimeUS`. -/
def counterClock (cfg : TimerConfig) : Nat :=
  toU64 ((cfg.SYSTEM_CLOCK / cfg.PRESCALER : Nat) : Int)

/-- The local `cyclesPerMillisecond` of `SWTimer_construct`. -/
def cyclesPerMillisecond (cfg : TimerConfig) : Nat :=
  counterClock cfg / toU64 (cfg.MS_DIVISION_FACTOR : Int)

/-- The local `cyclesPerMicrosecond` of `SWTimer_elapsedTimeUS`. -/
def cyclesPerMicrosecond (cfg : TimerConfig) : Nat :=
  counterClock cfg / toU64 (cfg.US_DIVISION_FACTOR : Int)

/-- Function `SWTimer_construct`: a timer that has not been started. -/
def SWTimer_construct (cfg : TimerConfig) (waitTime_ms : Nat) : SWTimer :=
  { startCounter := 0
    startRollovers := 0
    cyclesToWait := mul64 (cyclesPerMillisecond cfg) waitTime_ms }

/-- Function `SWTimer_start`: take the current hardware reading as the reference point. -/
def SWTimer_start (hw : HwReading) (timer : SWTimer) : SWTimer :=
  { timer with startCounter := hw.counter, startRollovers := hw.rollovers }

/-- Function `SWTimer_elapsedCycles`, operation by operation in `uint64_t`. -/
def SWTimer_elapsedCycles (cfg : TimerConfig) (hw : HwReading) (timer : SWTimer) : Nat :=
  let rollovers := sub64 hw.rollovers timer.startRollovers
  let startCounter := toU64 (timer.startCounter : Int)
  let currentCounter := toU64 (hw.counter : Int)
  sub64 (add64 (mul64 rollovers (toU64 ((cfg.LOADVALUE : Int) + 1))) startCounter)
    currentCounter

/-- Function `SWTimer_expired`. -/
def SWTimer_expired (cfg : TimerConfig) (hw : HwReading) (timer : SWTimer) : Bool :=
  let elapsedCycles := SWTimer_elapsedCycles cfg hw timer
  decide (elapsedCycles ≥ timer.cyclesToWait)

/-- Function `SWTimer_elapsedTimeUS`; `none` stands for the division by zero the C code
runs into when `cyclesPerMicrosecond` is zero. -/
def SWTimer_elapsedTimeUS (cfg : TimerConfig) (hw : HwReading) (timer : SWTimer) :
    Option Nat :=
  let elapsedCycles := SWTimer_elapsedCycles cfg hw timer
  if cyclesPerMicrosecond cfg = 0 then none
  else some (elapsedCycles / cyclesPerMicrosecond cfg)

/-- Function `SWTimer_percentElapsed`, with the `double` quotient taken as an exact rational. -/
def SWTimer_percentElapsed (cfg : TimerConfig) (hw : HwReading) (timer : SWTimer) : ℚ :=
  if timer.cyclesToWait = 0 then 1
  else
    let elapsedCycles := SWTimer_elapsedCycles cfg hw timer
    let result : ℚ := (elapsedCycles : ℚ) / (timer.cyclesToWait : ℚ)
    if result > 1 then 1 else result

/-- Function `SWTimer_percentElapsed` once more, returning next to the result the number
of divisions the call executes (the early `return 1.0` executes none). -/
def SWTimer_percentElapsedCounted (cfg : TimerConfig) (hw : HwReading) (timer : SWTimer) :
    ℚ × Nat :=
  if timer.cyclesToWait = 0 then (1, 0)
  else
    let elapsedCycles := SWTimer_elapsedCycles cfg hw timer
    let result : ℚ := (elapsedCycles : ℚ) / (timer.cyclesToWait : ℚ)
    if result > 1 then (1, 1) else (result, 1)

/-- The exact, unreduced result of each of the four `uint64_t` operations of
`SWTimer_elapsedCycles`, in the order the code evaluates them: the difference of the
rollover counts, the product with `LOADVALUE + 1`, the sum with `startCounter` and the
difference with `currentCounter`. An operation wraps around exactly when its entry
lies outside `[0, 2 ^ 64)`. -/
def SWTimer_elapsedCyclesSteps (cfg : TimerConfig) (hw : HwReading) (timer : SWTimer) :
    List Int :=
  let rollovers := sub64 hw.rollovers timer.startRollovers
  let startCounter := toU64 (timer.startCounter : Int)
  let currentCounter := toU64 (hw.counter : Int)
  let product := mul64 rollovers (toU64 ((cfg.LOADVALUE : Int) + 1))
  let sum := add64 product startCounter
  [(hw.rollovers : Int) - (timer.startRollovers : Int),
    (rollovers : Int) * (toU64 ((cfg.LOADVALUE : Int) + 1) : Int),
    (product : Int) + (startCounter : Int),
    (sum : Int) - (currentCounter : Int)]

/-! ## The timing hardware and the timer operations as events -/

/-- What can happen to the timing state between two reads of the main loop: the
rollover interrupt, the hardware counter moving to a new value, and a call of one of
the six functions of the software timer. -/
inductive TimerEvent where
  | irq
  | hwCount (counter : Nat)
  | construct (waitTime_ms : Nat)
  | start
  | elapsedCycles
  | expired
  | elapsedTimeUS
  | percentElapsed
  deriving DecidableEq

/-- The timing state: the hardware (counter register and `hwTimerRollovers`) and one
software timer. -/
structure TimerMachine where
  hw : HwReading
  timer : SWTimer
  deriving DecidableEq

/-- The effect of one event. `T32_INT1_IRQHandler` writes `hwTimerRollovers`;
`SWTimer_construct` and `SWTimer_start` write the timer; the four query functions
only read. -/
def timerStep (cfg : TimerConfig) : TimerEvent → TimerMachine → TimerMachine
  | TimerEvent.irq, m =>
    { m with hw := { m.hw with rollovers := T32_INT1_IRQHandler m.hw.rollovers } }
  | TimerEvent.hwCount c, m => { m with hw := { m.hw with counter := c } }
  | TimerEvent.construct d, m => { m with timer := SWTimer_construct cfg d }
  | TimerEvent.start, m => { m with timer := SWTimer_start m.hw m.timer }
  | TimerEvent.elapsedCycles, m => m
  | TimerEvent.expired, m => m
  | TimerEvent.elapsedTimeUS, m => m
  | TimerEvent.percentElapsed, m => m

/-- The effect of a sequence of events, first to last. -/
def timerRun (cfg : TimerConfig) : List TimerEvent → TimerMachine → TimerMachine
  | [], m => m
  | e :: es, m => timerRun cfg es (timerStep cfg e m)

/-- The number of rollover interrupts in a sequence of events. -/
def irqCount : List TimerEvent → Nat
  | [] => 0
  | TimerEvent.irq :: es => irqCount es + 1
  | _ :: es => irqCount es

/-! ## HAL/LED.c -/

/-- The struct `LED`. The GPIO writes are hardware effects outside the model. -/
structure LED where
  isLit : Bool
  port : Nat
  pin : Nat
  deriving DecidableEq

/-- Function `LED_construct`. -/
def LED_construct (port pin : Nat) : LED :=
  { isLit := false, port := port, pin := pin }

/-- Function `LED_turnOn`. -/
def LED_turnOn (led : LED) : LED := { led with isLit := true }

/-- Function `LED_turnOff`. -/
def LED_turnOff (led : LED) : LED := { led with isLit := false }

/-- Function `LED_toggle`. -/
def LED_toggle (led : LED) : LED := { led with isLit := !led.isLit }

/-- Function `LED_isLit`. -/
def LED_isLit (led : LED) : Bool := led.isLit

/-! ## The display and the inputs -/

/-- One command issued to the display or the graphics library. -/
inductive GfxCmd where
  | clear
  | print (text : String) (row col : Nat)
  | drawImage (image : String) (x y : Nat)
  deriving DecidableEq

/-- Modelled from the spec: `HAL/Graphics.c` is missing from the sources. The display
driver is an output-only collaborator that is handed `clear()` and
`printText(text, row, col)` calls and full-screen image draws keyed by a named asset;
the struct `GFX` is the trace of the commands received, oldest first. -/
structure GFX where
  commands : List GfxCmd
  deriving DecidableEq

/-- Modelled from the spec: `GFX_clear` of the missing `HAL/Graphics.c`; the call is
recorded in the trace. -/
def GFX_clear (gfx : GFX) : GFX :=
  { gfx with commands := gfx.commands ++ [GfxCmd.clear] }

/-- Modelled from the spec: `GFX_print` of the missing `HAL/Graphics.c`; the text and
its row and column are recorded in the trace. -/
def GFX_print (gfx : GFX) (text : String) (row col : Nat) : GFX :=
  { gfx with commands := gfx.commands ++ [GfxCmd.print text row col] }

/-- Call `Graphics_drawImage` of the vendor graphics library, recorded in the trace; the
image is named after its asset (`colors`, `happy`, `sad`). -/
def Graphics_drawImage (gfx : GFX) (image : String) (x y : Nat) : GFX :=
  { gfx with commands := gfx.commands ++ [GfxCmd.drawImage image x y] }

/-- The struct `HAL` as the application uses it: the three LEDs and the display. The
two `Button` members are represented by the value `Button_isTapped` reports for them
in the current iteration, see `Inputs`. -/
structure HAL where
  boosterpackRed : LED
  boosterpackBlue : LED
  boosterpackGreen : LED
  gfx : GFX
  deriving DecidableEq

/-- What one iteration of the super-loop reads from its environment: the result of
`Button_isTapped` for S1 and for S2 (each is read at most once per iteration) and
the reading of the timing hardware. -/
structure Inputs where
  boosterpackS1 : Bool
  boosterpackS2 : Bool
  hw : HwReading
  deriving DecidableEq

/-! ## App_GuessTheColor.h -/

def TITLE_SCREEN_WAIT : Nat := 1000
def RESULT_SCREEN_WAIT : Nat := 2000

def NUM_TEST_OPTIONS : Nat := 4
def NUM_RANDOM_NUMBERS : Int := 5

/-- The enumerators of `GameState`; a `GameState` is the integer that carries it. -/
def TITLE_SCREEN : Nat := 0
def INSTRUCTIONS_SCREEN : Nat := 1
def GAME_SCREEN : Nat := 2
def RESULT_SCREEN : Nat := 3

/-- The enumerators of `Cursor`. -/
def CURSOR_0 : Nat := 0
def CURSOR_1 : Nat := 1
def CURSOR_2 : Nat := 2
def CURSOR_3 : Nat := 3

/-- The bit masks `BIT0`, `BIT1`, `BIT2` of the device header. -/
def BIT0 : Nat := 1
def BIT1 : Nat := 2
def BIT2 : Nat := 4

/-- The struct `App_GuessTheColor`. The two enum members `state` and `cursor` are the
unsigned integers that carry them, so values outside the enumerators exist; the
`int` members are integers. -/
structure App_GuessTheColor where
  state : Nat
  timer : SWTimer
  redSelected : Bool
  greenSelected : Bool
  blueSelected : Bool
  cursor : Nat
  randomNumbers : List Int
  randomNumberChoice : Int
  deriving DecidableEq

/-- The read `randomNumbers[i]` of an `int[NUM_RANDOM_NUMBERS]`; `none` is an index
outside the array. -/
def randomNumbersAt (randomNumbers : List Int) (i : Int) : Option Int :=
  if 0 ≤ i ∧ i < NUM_RANDOM_NUMBERS then randomNumbers[i.toNat]? else none

/-! ## App_GuessTheColor.c -/

/-- Function `App_GuessTheColor_showTitleScreen`. -/
def App_GuessTheColor_showTitleScreen (gfx : GFX) : GFX :=
  let g := GFX_clear gfx
  let g := Graphics_drawImage g "colors" 0 0
  let g := GFX_print g "Guess the RGB color  " 0 0
  let g := GFX_print g "---------------------" 1 0
  let g := GFX_print g "By: Leyla Nazhand-Ali" 2 0
  GFX_print g "Edit: Matthew Zhong  " 3 0

/-- Function `App_GuessTheColor_initGameVariables`. -/
def App_GuessTheColor_initGameVariables (app : App_GuessTheColor) (hal : HAL) :
    App_GuessTheColor × HAL :=
  let app := { app with cursor := CURSOR_0 }
  let app := { app with redSelected := false }
  let app := { app with greenSelected := false }
  let app := { app with blueSelected := false }
  let hal := { hal with boosterpackRed := LED_turnOff hal.boosterpackRed }
  let hal := { hal with boosterpackGreen := LED_turnOff hal.boosterpackGreen }
  let hal := { hal with boosterpackBlue := LED_turnOff hal.boosterpackBlue }
  (app, hal)

/-- Function `App_GuessTheColor_construct`. Every member of the fresh struct is assigned. -/
def App_GuessTheColor_construct (cfg : TimerConfig) (hw : HwReading) (hal : HAL) :
    App_GuessTheColor × HAL :=
  let app : App_GuessTheColor :=
    { randomNumbers := [5, 2, 7, 1, 3]
      randomNumberChoice := 0
      state := TITLE_SCREEN
      timer := SWTimer_start hw (SWTimer_construct cfg TITLE_SCREEN_WAIT)
      redSelected := false
      greenSelected := false
      blueSelected := false
      cursor := CURSOR_0 }
  let r := App_GuessTheColor_initGameVariables app hal
  ({ r.1 with cursor := CURSOR_0 }, r.2)

/-- Function `App_GuessTheColor_showInstructionsScreen`. -/
def App_GuessTheColor_showInstructionsScreen (_app : App_GuessTheColor) (gfx : GFX) : GFX :=
  let g := GFX_clear gfx
  let g := GFX_print g "Instructions         " 0 0
  let g := GFX_print g "---------------------" 1 0
  let g := GFX_print g "Guess the RGB mix.   " 2 0
  let g := GFX_print g "Controls during guessing:" 3 0
  let g := GFX_print g "B1: Select choice    " 5 0
  let g := GFX_print g "B2: Move arrow       " 6 0
  GFX_print g "Press B2 to start.   " 8 0

/-- The part shared by the two game-screen drawing functions: the cursor and the stars
for the colours guessed. -/
def drawCursorAndStars (app : App_GuessTheColor) (gfx : GFX) : GFX :=
  let g := GFX_print gfx ">" (2 + app.cursor) 0
  let g := if app.redSelected then GFX_print g "*" 2 8 else g
  let g := if app.greenSelected then GFX_print g "*" 3 8 else g
  if app.blueSelected then GFX_print g "*" 4 8 else g

/-- Function `App_GuessTheColor_showGameScreen`. -/
def App_GuessTheColor_showGameScreen (app : App_GuessTheColor) (gfx : GFX) : GFX :=
  let g := GFX_clear gfx
  let g := GFX_print g "Game                 " 0 0
  let g := GFX_print g "---------------------" 1 0
  let g := GFX_print g "  Red                " 2 0
  let g := GFX_print g "  Green              " 3 0
  let g := GFX_print g "  Blue               " 4 0
  let g := GFX_print g "  End Guessing       " 5 0
  let g := GFX_print g "B1: Select choice    " 7 0
  let g := GFX_print g "B2: Move arrow       " 8 0
  drawCursorAndStars app g

/-- Function `App_GuessTheColor_updateGameScreen`. -/
def App_GuessTheColor_updateGameScreen (app : App_GuessTheColor) (gfx : GFX) : GFX :=
  let g := GFX_print gfx "  " 2 0
  let g := GFX_print g "  " 3 0
  let g := GFX_print g "  " 4 0
  let g := GFX_print g "  " 5 0
  drawCursorAndStars app g

/-- Function `App_GuessTheColor_showResultScreen`. -/
def App_GuessTheColor_showResultScreen (app : App_GuessTheColor) (hal : HAL) : HAL :=
  let g := GFX_clear hal.gfx
  let g := GFX_print g "Result               " 0 0
  let g := GFX_print g "---------------------" 1 0
  let isMatch : Bool :=
    (app.redSelected == LED_isLit hal.boosterpackRed)
      && (app.greenSelected == LED_isLit hal.boosterpackGreen)
      && (app.blueSelected == LED_isLit hal.boosterpackBlue)
  if isMatch then
    let g := GFX_print g "Right!" 2 0
    { hal with gfx := Graphics_drawImage g "happy" 60 60 }
  else
    let g := GFX_print g "Wrong!" 2 0
    { hal with gfx := Graphics_drawImage g "sad" 60 60 }

/-- Function `App_GuessTheColor_handleTitleScreen`. -/
def App_GuessTheColor_handleTitleScreen (cfg : TimerConfig) (inp : Inputs)
    (app : App_GuessTheColor) (hal : HAL) : App_GuessTheColor × HAL :=
  if SWTimer_expired cfg inp.hw app.timer then
    let app := { app with state := INSTRUCTIONS_SCREEN }
    (app, { hal with gfx := App_GuessTheColor_showInstructionsScreen app hal.gfx })
  else (app, hal)

/-- Function `App_GuessTheColor_handleInstructionsScreen`; `none` is a read outside the array
`randomNumbers`. -/
def App_GuessTheColor_handleInstructionsScreen (inp : Inputs)
    (app : App_GuessTheColor) (hal : HAL) : Option (App_GuessTheColor × HAL) :=
  if inp.boosterpackS2 then
    let app1 := { app with state := GAME_SCREEN }
    match randomNumbersAt app1.randomNumbers app1.randomNumberChoice with
    | none => none
    | some v =>
      let randomNumber : Nat := toU32 v
      let hal1 := if randomNumber &&& BIT0 ≠ 0
        then { hal with boosterpackRed := LED_turnOn hal.boosterpackRed } else hal
      let hal2 := if randomNumber &&& BIT1 ≠ 0
        then { hal1 with boosterpackGreen := LED_turnOn hal1.boosterpackGreen } else hal1
      let hal3 := if randomNumber &&& BIT2 ≠ 0
        then { hal2 with boosterpackBlue := LED_turnOn hal2.boosterpackBlue } else hal2
      let app2 := { app1 with
        randomNumberChoice := Int.tmod (app1.randomNumberChoice + 1) NUM_RANDOM_NUMBERS }
      some (app2, { hal3 with gfx := App_GuessTheColor_showGameScreen app2 hal3.gfx })
  else some (app, hal)

/-- The first `if` of `App_GuessTheColor_handleGameScreen`: the move button. -/
def handleGameScreenMove (inp : Inputs) (app : App_GuessTheColor) (hal : HAL) :
    App_GuessTheColor × HAL :=
  if inp.boosterpackS2 then
    let app := { app with cursor := (app.cursor + 1) % NUM_TEST_OPTIONS }
    (app, { hal with gfx := App_GuessTheColor_updateGameScreen app hal.gfx })
  else (app, hal)

/-- The second `if` of `App_GuessTheColor_handleGameScreen`: the select button. -/
def handleGameScreenSelect (cfg : TimerConfig) (inp : Inputs) (app : App_GuessTheColor)
    (hal : HAL) : App_GuessTheColor × HAL :=
  if inp.boosterpackS1 then
    if app.cursor = CURSOR_0 then
      let app := { app with redSelected := true }
      (app, { hal with gfx := App_GuessTheColor_updateGameScreen app hal.gfx })
    else if app.cursor = CURSOR_1 then
      let app := { app with greenSelected := true }
      (app, { hal with gfx := App_GuessTheColor_updateGameScreen app hal.gfx })
    else if app.cursor = CURSOR_2 then
      let app := { app with blueSelected := true }
      (app, { hal with gfx := App_GuessTheColor_updateGameScreen app hal.gfx })
    else if app.cursor = CURSOR_3 then
      let app := { app with state := RESULT_SCREEN }
      let app := { app with timer := SWTimer_construct cfg RESULT_SCREEN_WAIT }
      let app := { app with timer := SWTimer_start inp.hw app.timer }
      (app, App_GuessTheColor_showResultScreen app hal)
    else (app, hal)
  else (app, hal)

/-- Function `App_GuessTheColor_handleGameScreen`: the move button first, then the select
button on the cursor as the move left it. -/
def App_GuessTheColor_handleGameScreen (cfg : TimerConfig) (inp : Inputs)
    (app : App_GuessTheColor) (hal : HAL) : App_GuessTheColor × HAL :=
  let r := handleGameScreenMove inp app hal
  handleGameScreenSelect cfg inp r.1 r.2

/-- Function `App_GuessTheColor_handleResultScreen`. -/
def App_GuessTheColor_handleResultScreen (cfg : TimerConfig) (inp : Inputs)
    (app : App_GuessTheColor) (hal : HAL) : App_GuessTheColor × HAL :=
  if SWTimer_expired cfg inp.hw app.timer then
    let app := { app with state := INSTRUCTIONS_SCREEN }
    let r := App_GuessTheColor_initGameVariables app hal
    (r.1, { r.2 with gfx := App_GuessTheColor_showInstructionsScreen r.1 r.2.gfx })
  else (app, hal)

/-- Function `App_GuessTheColor_loop`: one iteration of the polling loop. -/
def App_GuessTheColor_loop (cfg : TimerConfig) (inp : Inputs)
    (app : App_GuessTheColor) (hal : HAL) : Option (App_GuessTheColor × HAL) :=
  if app.state = TITLE_SCREEN then
    some (App_GuessTheColor_handleTitleScreen cfg inp app hal)
  else if app.state = INSTRUCTIONS_SCREEN then
    App_GuessTheColor_handleInstructionsScreen inp app hal
  else if app.state = GAME_SCREEN then
    some (App_GuessTheColor_handleGameScreen cfg inp app hal)
  else if app.state = RESULT_SCREEN then
    some (App_GuessTheColor_handleResultScreen cfg inp app hal)
  else some (app, hal)

/-- The `while (true)` of `main` for finitely many iterations, one `Inputs` each
(`HAL_refresh` between two iterations only renews the button inputs). -/
def mainLoop (cfg : TimerConfig) :
    List Inputs → App_GuessTheColor × HAL → Option (App_GuessTheColor × HAL)
  | [], s => some s
  | inp :: rest, s =>
    match App_GuessTheColor_loop cfg inp s.1 s.2 with
    | none => none
    | some s1 => mainLoop cfg rest s1

/-- The sessions the program can be in: those obtained from
`App_GuessTheColor_construct` by iterations of `App_GuessTheColor_loop`. -/
def Reachable (cfg : TimerConfig) (s : App_GuessTheColor × HAL) : Prop :=
  ∃ (hw : HwReading) (hal0 : HAL) (inps : List Inputs),
    mainLoop cfg inps (App_GuessTheColor_construct cfg hw hal0) = some s

/-- The lit states of the red, green and blue LED. -/
def ledPattern (hal : HAL) : Bool × Bool × Bool :=
  (LED_isLit hal.boosterpackRed, LED_isLit hal.boosterpackGreen,
    LED_isLit hal.boosterpackBlue)

/-- The screens an execution of `mainLoop` is on at the beginning of each iteration. -/
def statesVisited (cfg : TimerConfig) :
    List Inputs → App_GuessTheColor × HAL → List Nat
  | [], _ => []
  | inp :: rest, s =>
    s.1.state ::
      (match App_GuessTheColor_loop cfg inp s.1 s.2 with
       | none => []
       | some s1 => statesVisited cfg rest s1)

/-- The LED pattern that belongs to the table entry at index `i` of the table
5, 2, 7, 1, 3: red for bit 0, green for bit 1, blue for bit 2 of the entry. -/
def tablePattern (i : Int) : Bool × Bool × Bool :=
  match randomNumbersAt [5, 2, 7, 1, 3] i with
  | some v => (decide (v % 2 = 1), decide (v / 2 % 2 = 1), decide (v / 4 % 2 = 1))
  | none => (false, false, false)

/-- The LED patterns at the start of the rounds of an execution of `mainLoop`: one entry
for each iteration that moves from the instructions screen to the game screen, in
order, holding the lit states right after that iteration. -/
def roundPatterns (cfg : TimerConfig) :
    List Inputs → App_GuessTheColor × HAL → List (Bool × Bool × Bool)
  | [], _ => []
  | inp :: rest, s =>
    match App_GuessTheColor_loop cfg inp s.1 s.2 with
    | none => []
    | some s1 =>
      if s.1.state = INSTRUCTIONS_SCREEN ∧ s1.1.state = GAME_SCREEN
      then ledPattern s1.2 :: roundPatterns cfg rest s1
      else roundPatterns cfg rest s1

/-- The facts that hold of every session the program can be in: the table is the one
the constructor wrote, the index and the cursor are in range, the state is one of
the four screens, and on the title and instructions screens the LEDs are unlit, no
colour is selected and the cursor is at the top. -/
def SessionInv (s : App_GuessTheColor × HAL) : Prop :=
  s.1.randomNumbers = [5, 2, 7, 1, 3]
    ∧ 0 ≤ s.1.randomNumberChoice ∧ s.1.randomNumberChoice < 5
    ∧ s.1.cursor < 4
    ∧ s.1.state ≤ 3
    ∧ (s.1.state ≤ 1 →
        s.2.boosterpackRed.isLit = false ∧ s.2.boosterpackGreen.isLit = false
          ∧ s.2.boosterpackBlue.isLit = false
          ∧ s.1.redSelected = false ∧ s.1.greenSelected = false
          ∧ s.1.blueSelected = false ∧ s.1.cursor = 0)

/-! ## Sample values -/

/-- A sample `HAL/Timer.h`: a 48 MHz clock, no prescaling, a full 32-bit load value. -/
def sampleConfig : TimerConfig :=
  { SYSTEM_CLOCK := 48000000
    PRESCALER := 1
    LOADVALUE := 4294967295
    MS_DIVISION_FACTOR := 1000
    US_DIVISION_FACTOR := 1000000 }

/-- A sample HAL: three unlit LEDs and an empty display trace. -/
def sampleHAL : HAL :=
  { boosterpackRed := LED_construct 2 64
    boosterpackBlue := LED_construct 5 64
    boosterpackGreen := LED_construct 2 16
    gfx := { commands := [] } }

/-- The session right after construction on the sample clock. -/
def sampleTitleSession : App_GuessTheColor × HAL :=
  App_GuessTheColor_construct sampleConfig { counter := 100, rollovers := 0 } sampleHAL

/-- An iteration without a button tap, one counter rollover after the sample start. -/
def sampleLateTick : Inputs :=
  { boosterpackS1 := false, boosterpackS2 := false, hw := { counter := 100, rollovers := 1 } }

/-- The sample session once the title timer has expired. -/
def sampleInstructionsSession : App_GuessTheColor × HAL :=
  App_GuessTheColor_handleTitleScreen sampleConfig sampleLateTick
    sampleTitleSession.1 sampleTitleSession.2

/-- An iteration with only S2 tapped. -/
def tapS2 (hw : HwReading) : Inputs :=
  { boosterpackS1 := false, boosterpackS2 := true, hw := hw }

/-- An iteration with only S1 tapped. -/
def tapS1 (hw : HwReading) : Inputs :=
  { boosterpackS1 := true, boosterpackS2 := false, hw := hw }

/-- An iteration with both S1 and S2 tapped. -/
def tapBoth (hw : HwReading) : Inputs :=
  { boosterpackS1 := true, boosterpackS2 := true, hw := hw }

/-- The sample session after the advance tap that starts its first round. -/
def sampleRoundSession : App_GuessTheColor × HAL :=
  (App_GuessTheColor_loop sampleConfig (tapS2 { counter := 90, rollovers := 1 })
    sampleInstructionsSession.1 sampleInstructionsSession.2).getD sampleInstructionsSession

/-- A sample session on the game screen, cursor on `k`, with the red LED lit. -/
def sampleGameSession (k : Nat) : App_GuessTheColor × HAL :=
  ({ sampleInstructionsSession.1 with state := GAME_SCREEN, cursor := k, greenSelected := true },
    { sampleHAL with boosterpackRed := LED_turnOn sampleHAL.boosterpackRed })

/-- A sample session on the result screen: two colours selected, cursor on the last
entry, red and blue lit, and the two-second timer started at rollover 7. -/
def sampleResultSession : App_GuessTheColor × HAL :=
  ({ state := RESULT_SCREEN
     timer := SWTimer_start { counter := 5000, rollovers := 7 }
       (SWTimer_construct sampleConfig RESULT_SCREEN_WAIT)
     redSelected := true
     greenSelected := true
     blueSelected := false
     cursor := CURSOR_3
     randomNumbers := [5, 2, 7, 1, 3]
     randomNumberChoice := 1 },
    { sampleHAL with
      boosterpackRed := LED_turnOn sampleHAL.boosterpackRed
      boosterpackBlue := LED_turnOn sampleHAL.boosterpackBlue })

/-! ## Arithmetic of the machine integers -/

theorem toU64_cast (z : Int) : ((toU64 z : Nat) : Int) = z % (2 ^ 64 : Int) := by
  unfold toU64
  exact Int.toNat_of_nonneg (Int.emod_nonneg z (by norm_num))

theorem toU64_lt (z : Int) : toU64 z < 2 ^ 64 := by
  have h : ((toU64 z : Nat) : Int) < (2 ^ 64 : Int) := by
    rw [toU64_cast]
    exact Int.emod_lt_of_pos z (by norm_num)
  exact_mod_cast h

theorem toU64_congr {a b : Int} (h : a ≡ b [ZMOD (2 ^ 64 : Int)]) : toU64 a = toU64 b := by
  unfold toU64
  rw [h]

theorem toU64_modEq (z : Int) : ((toU64 z : Nat) : Int) ≡ z [ZMOD (2 ^ 64 : Int)] := by
  rw [toU64_cast]
  exact Int.mod_modEq z _

theorem toU64_natCast (n : Nat) : toU64 (n : Int) = n % 2 ^ 64 := by
  have h : ((toU64 (n : Int) : Nat) : Int) = ((n % 2 ^ 64 : Nat) : Int) := by
    rw [toU64_cast]
    push_cast
    rfl
  exact_mod_cast h

theorem toU64_of_lt {n : Nat} (h : n < 2 ^ 64) : toU64 (n : Int) = n := by
  have h1 : ((toU64 (n : Int) : Nat) : Int) = (n : Int) := by
    rw [toU64_cast]
    exact Int.emod_eq_of_lt (Int.natCast_nonneg n) (by exact_mod_cast h)
  exact_mod_cast h1

/-- The value of `SWTimer_elapsedCycles` as one reduction modulo `2 ^ 64`. -/
theorem elapsedCycles_eq (cfg : TimerConfig) (hw : HwReading) (timer : SWTimer) :
    SWTimer_elapsedCycles cfg hw timer
      = toU64 (((hw.rollovers : Int) - (timer.startRollovers : Int))
          * ((cfg.LOADVALUE : Int) + 1) + (timer.startCounter : Int) - (hw.counter : Int)) := by
  unfold SWTimer_elapsedCycles sub64 add64 mul64
  apply toU64_congr
  refine Int.ModEq.sub ?_ (toU64_modEq _)
  refine (toU64_modEq _).trans ?_
  refine Int.ModEq.add ?_ (toU64_modEq _)
  refine (toU64_modEq _).trans ?_
  exact Int.ModEq.mul (toU64_modEq _) (toU64_modEq _)

/-! ## Software timers -/

/-- C1: for a timer started at the reading `(c0, r0)` and queried at the reading
`(c1, r1)`, `SWTimer_elapsedCycles` returns `(r1 - r0) * (LOADVALUE + 1) + c0 - c1`
reduced modulo `2 ^ 64`, that is, evaluated in unsigned 64-bit arithmetic. -/
theorem SWTimer_elapsedCycles_formula (cfg : TimerConfig) (timer : SWTimer)
    (start now : HwReading) :
    ((SWTimer_elapsedCycles cfg now (SWTimer_start start timer) : Nat) : Int)
      = (((now.rollovers : Int) - (start.rollovers : Int)) * ((cfg.LOADVALUE : Int) + 1)
          + (start.counter : Int) - (now.counter : Int)) % (2 ^ 64 : Int) := by
  rw [elapsedCycles_eq, toU64_cast]
  rfl

/-- C2: `SWTimer_expired` returns true exactly when the elapsed cycles computed by
`SWTimer_elapsedCycles` are at least the timer's `cyclesToWait`. -/
theorem SWTimer_expired_iff (cfg : TimerConfig) (hw : HwReading) (timer : SWTimer) :
    SWTimer_expired cfg hw timer = true
      ↔ timer.cyclesToWait ≤ SWTimer_elapsedCycles cfg hw timer := by
  simp [SWTimer_expired]

/-- The wait of a constructed timer, when the clock macro fits 64 bits. -/
theorem construct_cyclesToWait (cfg : TimerConfig) (d : Nat)
    (hClk : cfg.SYSTEM_CLOCK < 2 ^ 64) :
    (SWTimer_construct cfg d).cyclesToWait
      = toU64 (((cfg.SYSTEM_CLOCK / cfg.PRESCALER
          / toU64 (cfg.MS_DIVISION_FACTOR : Int) * d : Nat) : Int)) := by
  have h : cfg.SYSTEM_CLOCK / cfg.PRESCALER < 2 ^ 64 :=
    lt_of_le_of_lt (Nat.div_le_self _ _) hClk
  simp only [SWTimer_construct, mul64, cyclesPerMillisecond, counterClock, toU64_of_lt h]
  push_cast
  rfl

/-- C3: a timer constructed with `d` milliseconds and started at `start`, queried at
a reading that lies exactly `(SYSTEM_CLOCK / PRESCALER / 1000) * d` cycles after
`start`, is expired and reports `percentElapsed = 1`. -/
theorem SWTimer_at_duration (cfg : TimerConfig) (d : Nat) (start now : HwReading)
    (hMS : cfg.MS_DIVISION_FACTOR = 1000)
    (hClk : cfg.SYSTEM_CLOCK < 2 ^ 64)
    (hAfter : ((now.rollovers : Int) - (start.rollovers : Int)) * ((cfg.LOADVALUE : Int) + 1)
        + (start.counter : Int) - (now.counter : Int)
        = ((cfg.SYSTEM_CLOCK / cfg.PRESCALER / 1000 * d : Nat) : Int)) :
    SWTimer_expired cfg now (SWTimer_start start (SWTimer_construct cfg d)) = true
      ∧ SWTimer_percentElapsed cfg now (SWTimer_start start (SWTimer_construct cfg d)) = 1 := by
  have hk : toU64 ((1000 : Nat) : Int) = 1000 := toU64_of_lt (by norm_num)
  have hw : (SWTimer_start start (SWTimer_construct cfg d)).cyclesToWait
      = toU64 (((cfg.SYSTEM_CLOCK / cfg.PRESCALER / 1000 * d : Nat) : Int)) := by
    have h := construct_cyclesToWait cfg d hClk
    rw [hMS, hk] at h
    simpa [SWTimer_start] using h
  have he : SWTimer_elapsedCycles cfg now (SWTimer_start start (SWTimer_construct cfg d))
      = toU64 (((cfg.SYSTEM_CLOCK / cfg.PRESCALER / 1000 * d : Nat) : Int)) := by
    rw [elapsedCycles_eq, ← hAfter]
    rfl
  constructor
  · simp [SWTimer_expired, hw, he]
  · unfold SWTimer_percentElapsed
    rw [he, hw]
    generalize toU64 (((cfg.SYSTEM_CLOCK / cfg.PRESCALER / 1000 * d : Nat) : Int)) = n
    by_cases h0 : n = 0
    · simp [h0]
    · have hq : (n : ℚ) ≠ 0 := by exact_mod_cast h0
      simp [h0, div_self hq]

/-- Witness for C3: a one-second timer on the sample clock, started ten counts before
a rollover and queried 48 000 000 cycles later, after the counter has wrapped. -/
theorem SWTimer_at_duration_witness :
    SWTimer_expired sampleConfig { counter := 4246967306, rollovers := 4 }
        (SWTimer_start { counter := 10, rollovers := 3 }
          (SWTimer_construct sampleConfig 1000)) = true
      ∧ SWTimer_percentElapsed sampleConfig { counter := 4246967306, rollovers := 4 }
        (SWTimer_start { counter := 10, rollovers := 3 }
          (SWTimer_construct sampleConfig 1000)) = 1 :=
  SWTimer_at_duration sampleConfig 1000 { counter := 10, rollovers := 3 }
    { counter := 4246967306, rollovers := 4 } rfl (by decide) (by decide)

/-! ## The result screen -/

/-- C4: the commands `App_GuessTheColor_showResultScreen` sends to the display contain
the text `Right!` exactly when each of the three selection flags equals the lit state
of its LED, and the text `Wrong!` in every other case. -/
theorem showResultScreen_right_iff (app : App_GuessTheColor) (hal : HAL) :
    (GfxCmd.print "Right!" 2 0
        ∈ (App_GuessTheColor_showResultScreen app hal).gfx.commands.drop
            hal.gfx.commands.length
      ↔ (app.redSelected = LED_isLit hal.boosterpackRed
          ∧ app.greenSelected = LED_isLit hal.boosterpackGreen
          ∧ app.blueSelected = LED_isLit hal.boosterpackBlue))
    ∧ (GfxCmd.print "Wrong!" 2 0
        ∈ (App_GuessTheColor_showResultScreen app hal).gfx.commands.drop
            hal.gfx.commands.length
      ↔ ¬ (app.redSelected = LED_isLit hal.boosterpackRed
          ∧ app.greenSelected = LED_isLit hal.boosterpackGreen
          ∧ app.blueSelected = LED_isLit hal.boosterpackBlue)) := by
  unfold App_GuessTheColor_showResultScreen
  by_cases h : (app.redSelected = LED_isLit hal.boosterpackRed
          ∧ app.greenSelected = LED_isLit hal.boosterpackGreen
          ∧ app.blueSelected = LED_isLit hal.boosterpackBlue)
  · simp [h, GFX_clear, GFX_print, Graphics_drawImage]
  · have hb : ((app.redSelected == LED_isLit hal.boosterpackRed)
        && (app.greenSelected == LED_isLit hal.boosterpackGreen)
        && (app.blueSelected == LED_isLit hal.boosterpackBlue)) = false := by
      simpa [and_assoc] using h
    simp only [hb]
    simp [h, GFX_clear, GFX_print, Graphics_drawImage]

/-! ## The invariant of the sessions -/

theorem construct_inv (cfg : TimerConfig) (hw : HwReading) (hal : HAL) :
    SessionInv (App_GuessTheColor_construct cfg hw hal) := by
  simp [SessionInv, App_GuessTheColor_construct, App_GuessTheColor_initGameVariables,
    LED_turnOff, TITLE_SCREEN, CURSOR_0]

theorem loop_inv (cfg : TimerConfig) (inp : Inputs) (s s1 : App_GuessTheColor × HAL)
    (hInv : SessionInv s) (h : App_GuessTheColor_loop cfg inp s.1 s.2 = some s1) :
    SessionInv s1 := by
  obtain ⟨app, hal⟩ := s
  obtain ⟨hT, h0, h5, hC, hS, hLow⟩ := hInv
  simp only at hT h0 h5 hC hS hLow h
  unfold App_GuessTheColor_loop at h
  have hcases : app.state = 0 ∨ app.state = 1 ∨ app.state = 2 ∨ app.state = 3 := by omega
  rcases hcases with h' | h' | h' | h'
  · obtain ⟨hr, hg, hb, hrs, hgs, hbs, hc0⟩ := hLow (by omega)
    simp only [h', TITLE_SCREEN, if_true, Option.some.injEq] at h
    subst h
    unfold App_GuessTheColor_handleTitleScreen
    split
    · simp [SessionInv, INSTRUCTIONS_SCREEN, App_GuessTheColor_showInstructionsScreen,
        hT, h0, h5, hr, hg, hb, hrs, hgs, hbs, hc0]
    · simp [SessionInv, h', hT, h0, h5, hr, hg, hb, hrs, hgs, hbs, hc0]
  · obtain ⟨hr, hg, hb, hrs, hgs, hbs, hc0⟩ := hLow (by omega)
    simp only [h', TITLE_SCREEN, INSTRUCTIONS_SCREEN, if_true] at h
    simp only [show ¬ (1 = 0) by decide, if_false] at h
    unfold App_GuessTheColor_handleInstructionsScreen at h
    split at h
    · dsimp only at h
      cases hv : randomNumbersAt app.randomNumbers app.randomNumberChoice with
      | none => simp [hv] at h
      | some v =>
        simp only [hv, Option.some.injEq] at h
        subst h
        have hk : 0 ≤ Int.tmod (app.randomNumberChoice + 1) NUM_RANDOM_NUMBERS
            ∧ Int.tmod (app.randomNumberChoice + 1) NUM_RANDOM_NUMBERS < 5 := by
          unfold NUM_RANDOM_NUMBERS
          exact ⟨Int.tmod_nonneg _ (by omega), Int.tmod_lt_of_pos _ (by norm_num)⟩
        refine ⟨?_, hk.1, hk.2, ?_, ?_, ?_⟩
        · simpa using hT
        · simp [hc0]
        · simp [GAME_SCREEN]
        · intro hle
          simp [GAME_SCREEN] at hle
    · simp only [Option.some.injEq] at h
      subst h
      exact ⟨hT, h0, h5, hC, hS, hLow⟩
  · simp only [h', TITLE_SCREEN, INSTRUCTIONS_SCREEN, GAME_SCREEN, if_true] at h
    simp only [show ¬ (2 = 0) by decide, show ¬ (2 = 1) by decide, if_false,
      Option.some.injEq] at h
    subst h
    have hm : (app.cursor + 1) % 4 < 4 := Nat.mod_lt _ (by norm_num)
    unfold App_GuessTheColor_handleGameScreen handleGameScreenSelect handleGameScreenMove
    simp only [SessionInv, NUM_TEST_OPTIONS, CURSOR_0, CURSOR_1, CURSOR_2, CURSOR_3,
      RESULT_SCREEN]
    split_ifs <;> simp_all [App_GuessTheColor_showResultScreen, SWTimer_start]
  · simp only [h', TITLE_SCREEN, INSTRUCTIONS_SCREEN, GAME_SCREEN, RESULT_SCREEN,
      if_true] at h
    simp only [show ¬ (3 = 0) by decide, show ¬ (3 = 1) by decide,
      show ¬ (3 = 2) by decide, if_false, Option.some.injEq] at h
    subst h
    unfold App_GuessTheColor_handleResultScreen
    split
    · simp [SessionInv, INSTRUCTIONS_SCREEN, App_GuessTheColor_initGameVariables,
        LED_turnOff, CURSOR_0, hT, h0, h5]
    · simp [SessionInv, h', hT, h0, h5, hC]

theorem mainLoop_inv (cfg : TimerConfig) (inps : List Inputs) :
    ∀ (s s1 : App_GuessTheColor × HAL), SessionInv s → mainLoop cfg inps s = some s1 →
      SessionInv s1 := by
  induction inps with
  | nil =>
    intro s s1 hInv h
    simp only [mainLoop, Option.some.injEq] at h
    exact h ▸ hInv
  | cons inp rest ih =>
    intro s s1 hInv h
    simp only [mainLoop] at h
    cases hstep : App_GuessTheColor_loop cfg inp s.1 s.2 with
    | none => simp [hstep] at h
    | some s2 =>
      simp only [hstep] at h
      exact ih s2 s1 (loop_inv cfg inp s s2 hInv hstep) h

theorem reachable_inv (cfg : TimerConfig) (s : App_GuessTheColor × HAL)
    (h : Reachable cfg s) : SessionInv s := by
  obtain ⟨hw, hal0, inps, hrun⟩ := h
  exact mainLoop_inv cfg inps _ s (construct_inv cfg hw hal0) hrun

/-! ## Dispatch -/

theorem loop_instructions (cfg : TimerConfig) (inp : Inputs) (app : App_GuessTheColor)
    (hal : HAL) (h : app.state = INSTRUCTIONS_SCREEN) :
    App_GuessTheColor_loop cfg inp app hal
      = App_GuessTheColor_handleInstructionsScreen inp app hal := by
  simp [App_GuessTheColor_loop, h, INSTRUCTIONS_SCREEN, TITLE_SCREEN]

theorem loop_game (cfg : TimerConfig) (inp : Inputs) (app : App_GuessTheColor)
    (hal : HAL) (h : app.state = GAME_SCREEN) :
    App_GuessTheColor_loop cfg inp app hal
      = some (App_GuessTheColor_handleGameScreen cfg inp app hal) := by
  simp [App_GuessTheColor_loop, h, INSTRUCTIONS_SCREEN, TITLE_SCREEN, GAME_SCREEN]

theorem loop_result (cfg : TimerConfig) (inp : Inputs) (app : App_GuessTheColor)
    (hal : HAL) (h : app.state = RESULT_SCREEN) :
    App_GuessTheColor_loop cfg inp app hal
      = some (App_GuessTheColor_handleResultScreen cfg inp app hal) := by
  simp [App_GuessTheColor_loop, h, INSTRUCTIONS_SCREEN, TITLE_SCREEN, GAME_SCREEN,
    RESULT_SCREEN]

/-! ## The instructions screen -/

/-- C5: in a reachable session showing the instructions screen, an iteration with S2
tapped reads `v = randomNumbers[randomNumberChoice]`, moves to the game screen and
leaves the red, green and blue LED lit exactly when bit 0, bit 1 and bit 2 of `v` is
set; an iteration without S2 tapped changes neither the session nor the HAL. -/
theorem instructionsScreen_tick (cfg : TimerConfig) (inp : Inputs)
    (s : App_GuessTheColor × HAL) (hR : Reachable cfg s)
    (hS : s.1.state = INSTRUCTIONS_SCREEN) :
    (inp.boosterpackS2 = true →
      ∃ (v : Int) (s1 : App_GuessTheColor × HAL),
        randomNumbersAt s.1.randomNumbers s.1.randomNumberChoice = some v
          ∧ App_GuessTheColor_loop cfg inp s.1 s.2 = some s1
          ∧ s1.1.state = GAME_SCREEN
          ∧ (LED_isLit s1.2.boosterpackRed = true ↔ v % 2 = 1)
          ∧ (LED_isLit s1.2.boosterpackGreen = true ↔ v / 2 % 2 = 1)
          ∧ (LED_isLit s1.2.boosterpackBlue = true ↔ v / 4 % 2 = 1))
    ∧ (inp.boosterpackS2 = false → App_GuessTheColor_loop cfg inp s.1 s.2 = some s) := by
  obtain ⟨hT, h0, h5, -, -, hLow⟩ := reachable_inv cfg s hR
  obtain ⟨app, hal⟩ := s
  simp only at hT h0 h5 hLow hS
  obtain ⟨hr, hg, hb, -⟩ := hLow (by rw [hS]; decide)
  rw [loop_instructions cfg inp app hal hS]
  unfold App_GuessTheColor_handleInstructionsScreen
  constructor
  · intro hTap
    simp only [hTap, if_true, hT]
    have hcases : app.randomNumberChoice = 0 ∨ app.randomNumberChoice = 1
        ∨ app.randomNumberChoice = 2 ∨ app.randomNumberChoice = 3
        ∨ app.randomNumberChoice = 4 := by omega
    rcases hcases with h | h | h | h | h <;> rw [h]
    · refine ⟨5, _, by decide, rfl, rfl, ?_, ?_, ?_⟩ <;>
        simp +decide [LED_isLit, LED_turnOn, toU32, BIT0, BIT1, BIT2, hr, hg, hb]
    · refine ⟨2, _, by decide, rfl, rfl, ?_, ?_, ?_⟩ <;>
        simp +decide [LED_isLit, LED_turnOn, toU32, BIT0, BIT1, BIT2, hr, hg, hb]
    · refine ⟨7, _, by decide, rfl, rfl, ?_, ?_, ?_⟩ <;>
        simp +decide [LED_isLit, LED_turnOn, toU32, BIT0, BIT1, BIT2, hr, hg, hb]
    · refine ⟨1, _, by decide, rfl, rfl, ?_, ?_, ?_⟩ <;>
        simp +decide [LED_isLit, LED_turnOn, toU32, BIT0, BIT1, BIT2, hr, hg, hb]
    · refine ⟨3, _, by decide, rfl, rfl, ?_, ?_, ?_⟩ <;>
        simp +decide [LED_isLit, LED_turnOn, toU32, BIT0, BIT1, BIT2, hr, hg, hb]
  · intro hTap
    simp [hTap]

/-- Witness for C5: the sample session after the title timer has run out is reachable and
shows the instructions screen. -/
theorem instructionsScreen_tick_witness :
    Reachable sampleConfig sampleInstructionsSession
      ∧ sampleInstructionsSession.1.state = INSTRUCTIONS_SCREEN
      ∧ ((tapS2 ⟨90, 1⟩).boosterpackS2 = true →
        ∃ (v : Int) (s1 : App_GuessTheColor × HAL),
          randomNumbersAt sampleInstructionsSession.1.randomNumbers
              sampleInstructionsSession.1.randomNumberChoice = some v
            ∧ App_GuessTheColor_loop sampleConfig (tapS2 ⟨90, 1⟩)
                sampleInstructionsSession.1 sampleInstructionsSession.2 = some s1
            ∧ s1.1.state = GAME_SCREEN
            ∧ (LED_isLit s1.2.boosterpackRed = true ↔ v % 2 = 1)
            ∧ (LED_isLit s1.2.boosterpackGreen = true ↔ v / 2 % 2 = 1)
            ∧ (LED_isLit s1.2.boosterpackBlue = true ↔ v / 4 % 2 = 1))
      ∧ ((tapS2 ⟨90, 1⟩).boosterpackS2 = false →
        App_GuessTheColor_loop sampleConfig (tapS2 ⟨90, 1⟩)
            sampleInstructionsSession.1 sampleInstructionsSession.2
          = some sampleInstructionsSession) :=
  have hR : Reachable sampleConfig sampleInstructionsSession :=
    ⟨{ counter := 100, rollovers := 0 }, sampleHAL, [sampleLateTick], rfl⟩
  have hS : sampleInstructionsSession.1.state = INSTRUCTIONS_SCREEN := by decide
  ⟨hR, hS, instructionsScreen_tick sampleConfig (tapS2 ⟨90, 1⟩) sampleInstructionsSession hR hS⟩

/-! ## The result screen timer -/

/-- C6: on the result screen, an iteration in which the session timer has expired
moves to the instructions screen, clears the three selection flags, puts the cursor
at 0 and leaves the three LEDs unlit, with `randomNumberChoice` as it was; an
iteration in which the timer has not expired changes nothing. -/
theorem resultScreen_tick (cfg : TimerConfig) (inp : Inputs) (app : App_GuessTheColor)
    (hal : HAL) (hS : app.state = RESULT_SCREEN) :
    (SWTimer_expired cfg inp.hw app.timer = true →
      ∃ (s1 : App_GuessTheColor × HAL),
        App_GuessTheColor_loop cfg inp app hal = some s1
          ∧ s1.1.state = INSTRUCTIONS_SCREEN
          ∧ s1.1.redSelected = false ∧ s1.1.greenSelected = false
          ∧ s1.1.blueSelected = false
          ∧ s1.1.cursor = 0
          ∧ LED_isLit s1.2.boosterpackRed = false
          ∧ LED_isLit s1.2.boosterpackGreen = false
          ∧ LED_isLit s1.2.boosterpackBlue = false
          ∧ s1.1.randomNumberChoice = app.randomNumberChoice)
    ∧ (SWTimer_expired cfg inp.hw app.timer = false →
      App_GuessTheColor_loop cfg inp app hal = some (app, hal)) := by
  rw [loop_result cfg inp app hal hS]
  unfold App_GuessTheColor_handleResultScreen
  constructor
  · intro hE
    refine ⟨_, rfl, ?_⟩
    simp [hE, App_GuessTheColor_initGameVariables, LED_turnOff, LED_isLit, CURSOR_0]
  · intro hE
    simp [hE]

/-- Witness for C6: the sample result session, polled before and after its two seconds. -/
theorem resultScreen_tick_witness :
    sampleResultSession.1.state = RESULT_SCREEN
      ∧ (SWTimer_expired sampleConfig (tapS2 ⟨5000, 8⟩).hw sampleResultSession.1.timer = true →
        ∃ (s1 : App_GuessTheColor × HAL),
          App_GuessTheColor_loop sampleConfig (tapS2 ⟨5000, 8⟩) sampleResultSession.1
              sampleResultSession.2 = some s1
            ∧ s1.1.state = INSTRUCTIONS_SCREEN
            ∧ s1.1.redSelected = false ∧ s1.1.greenSelected = false
            ∧ s1.1.blueSelected = false
            ∧ s1.1.cursor = 0
            ∧ LED_isLit s1.2.boosterpackRed = false
            ∧ LED_isLit s1.2.boosterpackGreen = false
            ∧ LED_isLit s1.2.boosterpackBlue = false
            ∧ s1.1.randomNumberChoice = sampleResultSession.1.randomNumberChoice)
      ∧ (SWTimer_expired sampleConfig (tapS2 ⟨5000, 8⟩).hw sampleResultSession.1.timer = false →
        App_GuessTheColor_loop sampleConfig (tapS2 ⟨5000, 8⟩) sampleResultSession.1
            sampleResultSession.2
          = some (sampleResultSession.1, sampleResultSession.2)) :=
  ⟨rfl, resultScreen_tick sampleConfig (tapS2 ⟨5000, 8⟩) sampleResultSession.1
    sampleResultSession.2 rfl⟩

/-! ## The game screen -/

/-- C8: on the game screen with the cursor on `k ≤ 2`, an iteration with S1 tapped and
S2 not tapped sets the `k`-th selection flag (0 red, 1 green, 2 blue), stays on the
game screen and leaves the two other flags, the cursor, the timer,
`randomNumberChoice` and the three LEDs as they were. -/
theorem gameScreen_select (cfg : TimerConfig) (inp : Inputs) (app : App_GuessTheColor)
    (hal : HAL) (hS : app.state = GAME_SCREEN) (hC : app.cursor ≤ 2)
    (h1 : inp.boosterpackS1 = true) (h2 : inp.boosterpackS2 = false) :
    ∃ (s1 : App_GuessTheColor × HAL),
      App_GuessTheColor_loop cfg inp app hal = some s1
        ∧ s1.1.state = GAME_SCREEN
        ∧ s1.1.redSelected = (if app.cursor = 0 then true else app.redSelected)
        ∧ s1.1.greenSelected = (if app.cursor = 1 then true else app.greenSelected)
        ∧ s1.1.blueSelected = (if app.cursor = 2 then true else app.blueSelected)
        ∧ s1.1.cursor = app.cursor
        ∧ s1.1.timer = app.timer
        ∧ s1.1.randomNumberChoice = app.randomNumberChoice
        ∧ s1.2.boosterpackRed = hal.boosterpackRed
        ∧ s1.2.boosterpackGreen = hal.boosterpackGreen
        ∧ s1.2.boosterpackBlue = hal.boosterpackBlue := by
  rw [loop_game cfg inp app hal hS]
  refine ⟨_, rfl, ?_⟩
  have hcases : app.cursor = 0 ∨ app.cursor = 1 ∨ app.cursor = 2 := by omega
  rcases hcases with h | h | h <;>
    simp [App_GuessTheColor_handleGameScreen, handleGameScreenMove, handleGameScreenSelect,
      h1, h2, h, hS, CURSOR_0, CURSOR_1, CURSOR_2]

/-- Witness for C8: the sample game session with the cursor on Blue. -/
theorem gameScreen_select_witness :
    ∃ (s1 : App_GuessTheColor × HAL),
      App_GuessTheColor_loop sampleConfig (tapS1 ⟨70, 2⟩) (sampleGameSession 2).1
          (sampleGameSession 2).2 = some s1
        ∧ s1.1.state = GAME_SCREEN
        ∧ s1.1.redSelected
          = (if (sampleGameSession 2).1.cursor = 0 then true
              else (sampleGameSession 2).1.redSelected)
        ∧ s1.1.greenSelected
          = (if (sampleGameSession 2).1.cursor = 1 then true
              else (sampleGameSession 2).1.greenSelected)
        ∧ s1.1.blueSelected
          = (if (sampleGameSession 2).1.cursor = 2 then true
              else (sampleGameSession 2).1.blueSelected)
        ∧ s1.1.cursor = (sampleGameSession 2).1.cursor
        ∧ s1.1.timer = (sampleGameSession 2).1.timer
        ∧ s1.1.randomNumberChoice = (sampleGameSession 2).1.randomNumberChoice
        ∧ s1.2.boosterpackRed = (sampleGameSession 2).2.boosterpackRed
        ∧ s1.2.boosterpackGreen = (sampleGameSession 2).2.boosterpackGreen
        ∧ s1.2.boosterpackBlue = (sampleGameSession 2).2.boosterpackBlue :=
  gameScreen_select sampleConfig (tapS1 ⟨70, 2⟩) (sampleGameSession 2).1
    (sampleGameSession 2).2 rfl (by decide) rfl rfl

/-- Drawing the result screen changes no LED. -/
theorem showResultScreen_leds (a : App_GuessTheColor) (h : HAL) :
    (App_GuessTheColor_showResultScreen a h).boosterpackRed = h.boosterpackRed
      ∧ (App_GuessTheColor_showResultScreen a h).boosterpackGreen = h.boosterpackGreen
      ∧ (App_GuessTheColor_showResultScreen a h).boosterpackBlue = h.boosterpackBlue := by
  unfold App_GuessTheColor_showResultScreen
  dsimp only
  split_ifs <;> exact ⟨rfl, rfl, rfl⟩

/-- C9: on the game screen with the cursor on 3, an iteration with S1 tapped and S2 not
tapped moves to the result screen and replaces the session timer by the 2000 ms timer
started at the hardware reading of that iteration; the selection flags, the cursor,
`randomNumberChoice` and the three LEDs stay as they were. -/
theorem gameScreen_done (cfg : TimerConfig) (inp : Inputs) (app : App_GuessTheColor)
    (hal : HAL) (hS : app.state = GAME_SCREEN) (hC : app.cursor = 3)
    (h1 : inp.boosterpackS1 = true) (h2 : inp.boosterpackS2 = false) :
    ∃ (s1 : App_GuessTheColor × HAL),
      App_GuessTheColor_loop cfg inp app hal = some s1
        ∧ s1.1.state = RESULT_SCREEN
        ∧ s1.1.timer = SWTimer_start inp.hw (SWTimer_construct cfg 2000)
        ∧ s1.1.timer.cyclesToWait = (cyclesPerMillisecond cfg * 2000) % 2 ^ 64
        ∧ s1.1.timer.startCounter = inp.hw.counter
        ∧ s1.1.timer.startRollovers = inp.hw.rollovers
        ∧ s1.1.redSelected = app.redSelected
        ∧ s1.1.greenSelected = app.greenSelected
        ∧ s1.1.blueSelected = app.blueSelected
        ∧ s1.1.cursor = app.cursor
        ∧ s1.1.randomNumberChoice = app.randomNumberChoice
        ∧ s1.2.boosterpackRed = hal.boosterpackRed
        ∧ s1.2.boosterpackGreen = hal.boosterpackGreen
        ∧ s1.2.boosterpackBlue = hal.boosterpackBlue := by
  rw [loop_game cfg inp app hal hS]
  refine ⟨_, rfl, ?_⟩
  have hw : mul64 (cyclesPerMillisecond cfg) 2000 = (cyclesPerMillisecond cfg * 2000) % 2 ^ 64 := by
    unfold mul64
    rw [← toU64_natCast]
    push_cast
    rfl
  have hshow := showResultScreen_leds
  simp [App_GuessTheColor_handleGameScreen, handleGameScreenMove, handleGameScreenSelect,
    h1, h2, hC, CURSOR_0, CURSOR_1, CURSOR_2, CURSOR_3, RESULT_SCREEN_WAIT, hshow]
  simp [SWTimer_start, SWTimer_construct, hw]

/-- Witness for C9: the sample game session with the cursor on the last entry. -/
theorem gameScreen_done_witness :
    ∃ (s1 : App_GuessTheColor × HAL),
      App_GuessTheColor_loop sampleConfig (tapS1 ⟨70, 2⟩) (sampleGameSession 3).1
          (sampleGameSession 3).2 = some s1
        ∧ s1.1.state = RESULT_SCREEN
        ∧ s1.1.timer = SWTimer_start (tapS1 ⟨70, 2⟩).hw (SWTimer_construct sampleConfig 2000)
        ∧ s1.1.timer.cyclesToWait = (cyclesPerMillisecond sampleConfig * 2000) % 2 ^ 64
        ∧ s1.1.timer.startCounter = (tapS1 ⟨70, 2⟩).hw.counter
        ∧ s1.1.timer.startRollovers = (tapS1 ⟨70, 2⟩).hw.rollovers
        ∧ s1.1.redSelected = (sampleGameSession 3).1.redSelected
        ∧ s1.1.greenSelected = (sampleGameSession 3).1.greenSelected
        ∧ s1.1.blueSelected = (sampleGameSession 3).1.blueSelected
        ∧ s1.1.cursor = (sampleGameSession 3).1.cursor
        ∧ s1.1.randomNumberChoice = (sampleGameSession 3).1.randomNumberChoice
        ∧ s1.2.boosterpackRed = (sampleGameSession 3).2.boosterpackRed
        ∧ s1.2.boosterpackGreen = (sampleGameSession 3).2.boosterpackGreen
        ∧ s1.2.boosterpackBlue = (sampleGameSession 3).2.boosterpackBlue :=
  gameScreen_done sampleConfig (tapS1 ⟨70, 2⟩) (sampleGameSession 3).1
    (sampleGameSession 3).2 rfl rfl rfl rfl

/-- C10: on the game screen with the cursor on `c < 4`, an iteration with only S2 tapped
puts the cursor on `(c + 1) % 4`, stays on the game screen and changes no selection
flag; four such iterations in a row bring the cursor back to `c`. -/
theorem gameScreen_move (cfg : TimerConfig) (inp : Inputs) (app : App_GuessTheColor)
    (hal : HAL) (hS : app.state = GAME_SCREEN) (hC : app.cursor < 4)
    (h1 : inp.boosterpackS1 = false) (h2 : inp.boosterpackS2 = true) :
    (∃ (s1 : App_GuessTheColor × HAL),
      App_GuessTheColor_loop cfg inp app hal = some s1
        ∧ s1.1.cursor = (app.cursor + 1) % 4
        ∧ s1.1.state = GAME_SCREEN
        ∧ s1.1.redSelected = app.redSelected
        ∧ s1.1.greenSelected = app.greenSelected
        ∧ s1.1.blueSelected = app.blueSelected)
    ∧ (∀ (hwA hwB hwC hwD : HwReading), ∃ (s4 : App_GuessTheColor × HAL),
        mainLoop cfg [tapS2 hwA, tapS2 hwB, tapS2 hwC, tapS2 hwD] (app, hal) = some s4
          ∧ s4.1.cursor = app.cursor
          ∧ s4.1.state = GAME_SCREEN) := by
  have hcases : app.cursor = 0 ∨ app.cursor = 1 ∨ app.cursor = 2 ∨ app.cursor = 3 := by
    omega
  constructor
  · rw [loop_game cfg inp app hal hS]
    refine ⟨_, rfl, ?_⟩
    rcases hcases with h | h | h | h <;>
      simp [App_GuessTheColor_handleGameScreen, handleGameScreenMove,
        handleGameScreenSelect, h1, h2, h, hS, NUM_TEST_OPTIONS]
  · intro hwA hwB hwC hwD
    rcases hcases with h | h | h | h <;>
      simp [mainLoop, App_GuessTheColor_loop, App_GuessTheColor_handleGameScreen,
        handleGameScreenMove, handleGameScreenSelect, tapS2, h, hS, NUM_TEST_OPTIONS,
        TITLE_SCREEN, INSTRUCTIONS_SCREEN, GAME_SCREEN]

/-- Witness for C10: the sample game session with the cursor on the last entry. -/
theorem gameScreen_move_witness :
    (∃ (s1 : App_GuessTheColor × HAL),
      App_GuessTheColor_loop sampleConfig (tapS2 ⟨60, 2⟩) (sampleGameSession 3).1
          (sampleGameSession 3).2 = some s1
        ∧ s1.1.cursor = ((sampleGameSession 3).1.cursor + 1) % 4
        ∧ s1.1.state = GAME_SCREEN
        ∧ s1.1.redSelected = (sampleGameSession 3).1.redSelected
        ∧ s1.1.greenSelected = (sampleGameSession 3).1.greenSelected
        ∧ s1.1.blueSelected = (sampleGameSession 3).1.blueSelected)
    ∧ (∀ (hwA hwB hwC hwD : HwReading), ∃ (s4 : App_GuessTheColor × HAL),
        mainLoop sampleConfig [tapS2 hwA, tapS2 hwB, tapS2 hwC, tapS2 hwD]
            ((sampleGameSession 3).1, (sampleGameSession 3).2) = some s4
          ∧ s4.1.cursor = (sampleGameSession 3).1.cursor
          ∧ s4.1.state = GAME_SCREEN) :=
  gameScreen_move sampleConfig (tapS2 ⟨60, 2⟩) (sampleGameSession 3).1
    (sampleGameSession 3).2 rfl (by decide) rfl rfl

/-! ## A whole round -/

/-- C7: from a reachable session on the instructions screen, the advance tap followed by
select (cursor 0, Red), move, select (cursor 1, Green), move, move and select (cursor 3)
ends on the result screen with Red and Green selected and Blue not; the result drawn
is `Right!` when the low three bits of the round's value `v` are `0b011` and `Wrong!`
for every other value. With the table 5, 2, 7, 1, 3 the round at index 0 has `v = 5`
and the round at index 4 has `v = 3`. -/
theorem round_red_green (cfg : TimerConfig) (s : App_GuessTheColor × HAL)
    (hR : Reachable cfg s) (hS : s.1.state = INSTRUCTIONS_SCREEN)
    (hw1 hw2 hw3 hw4 hw5 hw6 hw7 : HwReading) :
    ∃ (v : Int) (s7 : App_GuessTheColor × HAL),
      randomNumbersAt s.1.randomNumbers s.1.randomNumberChoice = some v
        ∧ mainLoop cfg [tapS2 hw1, tapS1 hw2, tapS2 hw3, tapS1 hw4, tapS2 hw5, tapS2 hw6,
            tapS1 hw7] s = some s7
        ∧ s7.1.state = RESULT_SCREEN
        ∧ s7.1.redSelected = true ∧ s7.1.greenSelected = true ∧ s7.1.blueSelected = false
        ∧ [GfxCmd.clear, GfxCmd.print "Result               " 0 0,
            GfxCmd.print "---------------------" 1 0,
            GfxCmd.print (if v % 8 = 3 then "Right!" else "Wrong!") 2 0,
            GfxCmd.drawImage (if v % 8 = 3 then "happy" else "sad") 60 60]
          <:+ s7.2.gfx.commands
        ∧ (s.1.randomNumberChoice = 0 → v = 5)
        ∧ (s.1.randomNumberChoice = 4 → v = 3) := by
  obtain ⟨hT, h0, h5, -, -, hLow⟩ := reachable_inv cfg s hR
  obtain ⟨⟨state, timer, rs, gs, bs, cursor, table, rnc⟩, ⟨⟨rl, rp, rq⟩, ⟨bl, bp, bq⟩,
    ⟨gl, gp, gq⟩, ⟨cmds⟩⟩⟩ := s
  simp only at hT h0 h5 hLow hS
  obtain ⟨hr, hg, hb, hrs, hgs, hbs, hc0⟩ := hLow (by rw [hS]; decide)
  subst hT hS hr hg hb hrs hgs hbs hc0
  have hcases : rnc = 0 ∨ rnc = 1 ∨ rnc = 2 ∨ rnc = 3 ∨ rnc = 4 := by omega
  rcases hcases with h | h | h | h | h <;> subst h <;>
    refine ⟨_, _, rfl, rfl, rfl, rfl, rfl, rfl, ?_, ?_, ?_⟩ <;>
    simp +decide [mainLoop, App_GuessTheColor_loop, App_GuessTheColor_handleInstructionsScreen,
      App_GuessTheColor_handleGameScreen, handleGameScreenMove, handleGameScreenSelect,
      App_GuessTheColor_showResultScreen, App_GuessTheColor_showGameScreen,
      App_GuessTheColor_updateGameScreen, drawCursorAndStars, GFX_clear, GFX_print,
      Graphics_drawImage, LED_isLit, LED_turnOn, tapS1, tapS2, toU32, BIT0, BIT1, BIT2,
      CURSOR_0, CURSOR_1, CURSOR_2, CURSOR_3, TITLE_SCREEN, INSTRUCTIONS_SCREEN,
      GAME_SCREEN, RESULT_SCREEN, NUM_TEST_OPTIONS, NUM_RANDOM_NUMBERS, randomNumbersAt]
  all_goals
    refine List.IsSuffix.trans ?_ (List.suffix_append _ _)
    decide

/-- Witness for C7: the first round of the sample session, whose value is 5. -/
theorem round_red_green_witness :
    Reachable sampleConfig sampleInstructionsSession
      ∧ sampleInstructionsSession.1.state = INSTRUCTIONS_SCREEN
      ∧ ∃ (v : Int) (s7 : App_GuessTheColor × HAL),
        randomNumbersAt sampleInstructionsSession.1.randomNumbers
            sampleInstructionsSession.1.randomNumberChoice = some v
          ∧ mainLoop sampleConfig [tapS2 ⟨90, 1⟩, tapS1 ⟨80, 1⟩, tapS2 ⟨70, 1⟩, tapS1 ⟨60, 1⟩,
              tapS2 ⟨50, 1⟩, tapS2 ⟨40, 1⟩, tapS1 ⟨30, 1⟩] sampleInstructionsSession = some s7
          ∧ s7.1.state = RESULT_SCREEN
          ∧ s7.1.redSelected = true ∧ s7.1.greenSelected = true ∧ s7.1.blueSelected = false
          ∧ [GfxCmd.clear, GfxCmd.print "Result               " 0 0,
              GfxCmd.print "---------------------" 1 0,
              GfxCmd.print (if v % 8 = 3 then "Right!" else "Wrong!") 2 0,
              GfxCmd.drawImage (if v % 8 = 3 then "happy" else "sad") 60 60]
            <:+ s7.2.gfx.commands
          ∧ (sampleInstructionsSession.1.randomNumberChoice = 0 → v = 5)
          ∧ (sampleInstructionsSession.1.randomNumberChoice = 4 → v = 3) :=
  have hR : Reachable sampleConfig sampleInstructionsSession :=
    ⟨{ counter := 100, rollovers := 0 }, sampleHAL, [sampleLateTick], rfl⟩
  have hS : sampleInstructionsSession.1.state = INSTRUCTIONS_SCREEN := by decide
  ⟨hR, hS, round_red_green sampleConfig sampleInstructionsSession hR hS
    ⟨90, 1⟩ ⟨80, 1⟩ ⟨70, 1⟩ ⟨60, 1⟩ ⟨50, 1⟩ ⟨40, 1⟩ ⟨30, 1⟩⟩

/-! ## Software timers: construction, progress and microseconds -/

/-- C15: for every duration `d`, `SWTimer_construct` returns a timer whose `cyclesToWait`
is `(SYSTEM_CLOCK / PRESCALER / 1000) * d` in unsigned 64-bit arithmetic and whose
`startCounter` and `startRollovers` are 0. -/
theorem SWTimer_construct_fields (cfg : TimerConfig) (d : Nat)
    (hMS : cfg.MS_DIVISION_FACTOR = 1000) (hClk : cfg.SYSTEM_CLOCK < 2 ^ 64) :
    (SWTimer_construct cfg d).cyclesToWait
        = (cfg.SYSTEM_CLOCK / cfg.PRESCALER / 1000 * d) % 2 ^ 64
      ∧ (SWTimer_construct cfg d).startCounter = 0
      ∧ (SWTimer_construct cfg d).startRollovers = 0 := by
  have hk : toU64 ((1000 : Nat) : Int) = 1000 := toU64_of_lt (by norm_num)
  refine ⟨?_, rfl, rfl⟩
  rw [construct_cyclesToWait cfg d hClk, hMS, hk, toU64_natCast]

/-- Witness for C15: a one-second timer on the sample clock. -/
theorem SWTimer_construct_fields_witness :
    (SWTimer_construct sampleConfig 1000).cyclesToWait
        = (sampleConfig.SYSTEM_CLOCK / sampleConfig.PRESCALER / 1000 * 1000) % 2 ^ 64
      ∧ (SWTimer_construct sampleConfig 1000).startCounter = 0
      ∧ (SWTimer_construct sampleConfig 1000).startRollovers = 0 :=
  SWTimer_construct_fields sampleConfig 1000 rfl (by decide)

/-- The counted variant computes the value of `SWTimer_percentElapsed`. -/
theorem percentElapsedCounted_fst (cfg : TimerConfig) (hw : HwReading) (timer : SWTimer) :
    (SWTimer_percentElapsedCounted cfg hw timer).1 = SWTimer_percentElapsed cfg hw timer := by
  unfold SWTimer_percentElapsedCounted SWTimer_percentElapsed
  dsimp only
  split_ifs <;> rfl

/-- C16: a timer with `cyclesToWait = 0` reports `percentElapsed = 1` at every reading,
whatever its start snapshot, and the call executes no division; every timer
constructed with duration 0 is such a timer, started or not. -/
theorem percentElapsed_zero_wait (cfg : TimerConfig) (hw : HwReading) (timer : SWTimer)
    (h0 : timer.cyclesToWait = 0) :
    SWTimer_percentElapsed cfg hw timer = 1
      ∧ SWTimer_percentElapsedCounted cfg hw timer = (1, 0)
      ∧ (SWTimer_construct cfg 0).cyclesToWait = 0
      ∧ (∀ (start : HwReading),
          SWTimer_percentElapsed cfg hw (SWTimer_start start (SWTimer_construct cfg 0)) = 1) := by
  have hz : (SWTimer_construct cfg 0).cyclesToWait = 0 := by
    simp [SWTimer_construct, mul64, toU64]
  refine ⟨?_, ?_, hz, ?_⟩
  · simp [SWTimer_percentElapsed, h0]
  · simp [SWTimer_percentElapsedCounted, h0]
  · intro start
    have hs : (SWTimer_start start (SWTimer_construct cfg 0)).cyclesToWait = 0 := hz
    simp [SWTimer_percentElapsed, hs]

/-- Witness for C16: a started timer whose wait was set to zero cycles. -/
theorem percentElapsed_zero_wait_witness :
    SWTimer_percentElapsed sampleConfig ⟨40, 9⟩ ⟨0, 77, 3⟩ = 1
      ∧ SWTimer_percentElapsedCounted sampleConfig ⟨40, 9⟩ ⟨0, 77, 3⟩ = (1, 0)
      ∧ (SWTimer_construct sampleConfig 0).cyclesToWait = 0
      ∧ (∀ (start : HwReading),
          SWTimer_percentElapsed sampleConfig ⟨40, 9⟩
            (SWTimer_start start (SWTimer_construct sampleConfig 0)) = 1) :=
  percentElapsed_zero_wait sampleConfig ⟨40, 9⟩ ⟨0, 77, 3⟩ rfl

/-- For a positive wait the progress is the quotient capped at 1. -/
theorem percentElapsed_eq_min (cfg : TimerConfig) (hw : HwReading) (timer : SWTimer)
    (hc : 0 < timer.cyclesToWait) :
    SWTimer_percentElapsed cfg hw timer
      = min ((SWTimer_elapsedCycles cfg hw timer : ℚ) / (timer.cyclesToWait : ℚ)) 1 := by
  unfold SWTimer_percentElapsed
  have hne : timer.cyclesToWait ≠ 0 := by omega
  simp only [hne, if_false]
  split_ifs with h
  · exact (min_eq_right (le_of_lt h)).symm
  · exact (min_eq_left (not_lt.mp h)).symm

/-- C17: for a timer with `cyclesToWait > 0` and elapsed cycles `e`, `percentElapsed` is
`e / cyclesToWait` when `e < cyclesToWait` and 1 otherwise; it lies in `[0, 1]` and does
not decrease when `e` grows (over exact rationals in place of `double`). -/
theorem percentElapsed_positive_wait (cfg : TimerConfig) (hw : HwReading) (timer : SWTimer)
    (hc : 0 < timer.cyclesToWait) :
    (SWTimer_elapsedCycles cfg hw timer < timer.cyclesToWait →
        SWTimer_percentElapsed cfg hw timer
          = (SWTimer_elapsedCycles cfg hw timer : ℚ) / (timer.cyclesToWait : ℚ))
      ∧ (timer.cyclesToWait ≤ SWTimer_elapsedCycles cfg hw timer →
        SWTimer_percentElapsed cfg hw timer = 1)
      ∧ 0 ≤ SWTimer_percentElapsed cfg hw timer
      ∧ SWTimer_percentElapsed cfg hw timer ≤ 1
      ∧ (∀ (later : HwReading),
          SWTimer_elapsedCycles cfg hw timer ≤ SWTimer_elapsedCycles cfg later timer →
          SWTimer_percentElapsed cfg hw timer ≤ SWTimer_percentElapsed cfg later timer) := by
  have hq : (0 : ℚ) < (timer.cyclesToWait : ℚ) := by exact_mod_cast hc
  have hnn : ∀ (r : HwReading),
      (0 : ℚ) ≤ (SWTimer_elapsedCycles cfg r timer : ℚ) / (timer.cyclesToWait : ℚ) :=
    fun r => div_nonneg (Nat.cast_nonneg _) (le_of_lt hq)
  refine ⟨?_, ?_, ?_, ?_, ?_⟩
  · intro hlt
    rw [percentElapsed_eq_min cfg hw timer hc]
    apply min_eq_left
    rw [div_le_one hq]
    exact_mod_cast le_of_lt hlt
  · intro hle
    rw [percentElapsed_eq_min cfg hw timer hc]
    apply min_eq_right
    rw [one_le_div hq]
    exact_mod_cast hle
  · rw [percentElapsed_eq_min cfg hw timer hc]
    exact le_min (hnn hw) zero_le_one
  · rw [percentElapsed_eq_min cfg hw timer hc]
    exact min_le_right _ _
  · intro later hle
    rw [percentElapsed_eq_min cfg hw timer hc, percentElapsed_eq_min cfg later timer hc]
    apply min_le_min _ (le_refl _)
    apply div_le_div_of_nonneg_right _ (le_of_lt hq)
    exact_mod_cast hle

/-- Witness for C17: a one-second timer on the sample clock, 100 cycles after its start. -/
theorem percentElapsed_positive_wait_witness :
    (SWTimer_elapsedCycles sampleConfig ⟨900, 0⟩
          (SWTimer_start ⟨1000, 0⟩ (SWTimer_construct sampleConfig 1000))
        < (SWTimer_start ⟨1000, 0⟩ (SWTimer_construct sampleConfig 1000)).cyclesToWait →
        SWTimer_percentElapsed sampleConfig ⟨900, 0⟩
            (SWTimer_start ⟨1000, 0⟩ (SWTimer_construct sampleConfig 1000))
          = (SWTimer_elapsedCycles sampleConfig ⟨900, 0⟩
                (SWTimer_start ⟨1000, 0⟩ (SWTimer_construct sampleConfig 1000)) : ℚ)
              / ((SWTimer_start ⟨1000, 0⟩
                  (SWTimer_construct sampleConfig 1000)).cyclesToWait : ℚ))
      ∧ ((SWTimer_start ⟨1000, 0⟩ (SWTimer_construct sampleConfig 1000)).cyclesToWait
          ≤ SWTimer_elapsedCycles sampleConfig ⟨900, 0⟩
              (SWTimer_start ⟨1000, 0⟩ (SWTimer_construct sampleConfig 1000)) →
        SWTimer_percentElapsed sampleConfig ⟨900, 0⟩
            (SWTimer_start ⟨1000, 0⟩ (SWTimer_construct sampleConfig 1000)) = 1)
      ∧ 0 ≤ SWTimer_percentElapsed sampleConfig ⟨900, 0⟩
            (SWTimer_start ⟨1000, 0⟩ (SWTimer_construct sampleConfig 1000))
      ∧ SWTimer_percentElapsed sampleConfig ⟨900, 0⟩
            (SWTimer_start ⟨1000, 0⟩ (SWTimer_construct sampleConfig 1000)) ≤ 1
      ∧ (∀ (later : HwReading),
          SWTimer_elapsedCycles sampleConfig ⟨900, 0⟩
              (SWTimer_start ⟨1000, 0⟩ (SWTimer_construct sampleConfig 1000))
            ≤ SWTimer_elapsedCycles sampleConfig later
              (SWTimer_start ⟨1000, 0⟩ (SWTimer_construct sampleConfig 1000)) →
          SWTimer_percentElapsed sampleConfig ⟨900, 0⟩
              (SWTimer_start ⟨1000, 0⟩ (SWTimer_construct sampleConfig 1000))
            ≤ SWTimer_percentElapsed sampleConfig later
              (SWTimer_start ⟨1000, 0⟩ (SWTimer_construct sampleConfig 1000))) :=
  percentElapsed_positive_wait sampleConfig ⟨900, 0⟩
    (SWTimer_start ⟨1000, 0⟩ (SWTimer_construct sampleConfig 1000)) (by decide)

/-- The cycles per microsecond, when the clock macro fits 64 bits. -/
theorem cyclesPerMicrosecond_eq (cfg : TimerConfig)
    (hUS : cfg.US_DIVISION_FACTOR = 1000000) (hClk : cfg.SYSTEM_CLOCK < 2 ^ 64) :
    cyclesPerMicrosecond cfg = cfg.SYSTEM_CLOCK / cfg.PRESCALER / 1000000 := by
  have h : cfg.SYSTEM_CLOCK / cfg.PRESCALER < 2 ^ 64 :=
    lt_of_le_of_lt (Nat.div_le_self _ _) hClk
  have hk : toU64 ((1000000 : Nat) : Int) = 1000000 := toU64_of_lt (by norm_num)
  unfold cyclesPerMicrosecond counterClock
  rw [toU64_of_lt h, hUS, hk]

/-- C18: when `SYSTEM_CLOCK / PRESCALER` is at least 1 MHz the divisor
`SYSTEM_CLOCK / PRESCALER / 1000000` is not zero and `SWTimer_elapsedTimeUS` returns the
elapsed cycles of `SWTimer_elapsedCycles` divided by it, rounded down. -/
theorem SWTimer_elapsedTimeUS_eq (cfg : TimerConfig) (hw : HwReading) (timer : SWTimer)
    (hUS : cfg.US_DIVISION_FACTOR = 1000000) (hClk : cfg.SYSTEM_CLOCK < 2 ^ 64)
    (hMHz : 1000000 ≤ cfg.SYSTEM_CLOCK / cfg.PRESCALER) :
    cfg.SYSTEM_CLOCK / cfg.PRESCALER / 1000000 ≠ 0
      ∧ SWTimer_elapsedTimeUS cfg hw timer
        = some (SWTimer_elapsedCycles cfg hw timer
            / (cfg.SYSTEM_CLOCK / cfg.PRESCALER / 1000000))
      ∧ SWTimer_elapsedTimeUS cfg hw timer
        = some ⌊(SWTimer_elapsedCycles cfg hw timer : ℚ)
            / ((cfg.SYSTEM_CLOCK / cfg.PRESCALER / 1000000 : Nat) : ℚ)⌋₊ := by
  have hne : cfg.SYSTEM_CLOCK / cfg.PRESCALER / 1000000 ≠ 0 := by
    have : 1 ≤ cfg.SYSTEM_CLOCK / cfg.PRESCALER / 1000000 :=
      (Nat.le_div_iff_mul_le (by norm_num)).mpr (by omega)
    omega
  have hval : SWTimer_elapsedTimeUS cfg hw timer
      = some (SWTimer_elapsedCycles cfg hw timer
          / (cfg.SYSTEM_CLOCK / cfg.PRESCALER / 1000000)) := by
    unfold SWTimer_elapsedTimeUS
    rw [cyclesPerMicrosecond_eq cfg hUS hClk]
    simp [hne]
  refine ⟨hne, hval, ?_⟩
  rw [hval, Nat.floor_div_eq_div]

/-- Witness for C18: the sample clock runs at 48 cycles per microsecond. -/
theorem SWTimer_elapsedTimeUS_eq_witness :
    sampleConfig.SYSTEM_CLOCK / sampleConfig.PRESCALER / 1000000 ≠ 0
      ∧ SWTimer_elapsedTimeUS sampleConfig ⟨900, 0⟩ ⟨48000000, 1000, 0⟩
        = some (SWTimer_elapsedCycles sampleConfig ⟨900, 0⟩ ⟨48000000, 1000, 0⟩
            / (sampleConfig.SYSTEM_CLOCK / sampleConfig.PRESCALER / 1000000))
      ∧ SWTimer_elapsedTimeUS sampleConfig ⟨900, 0⟩ ⟨48000000, 1000, 0⟩
        = some ⌊(SWTimer_elapsedCycles sampleConfig ⟨900, 0⟩ ⟨48000000, 1000, 0⟩ : ℚ)
            / ((sampleConfig.SYSTEM_CLOCK / sampleConfig.PRESCALER / 1000000 : Nat) : ℚ)⌋₊ :=
  SWTimer_elapsedTimeUS_eq sampleConfig ⟨900, 0⟩ ⟨48000000, 1000, 0⟩ rfl (by decide)
    (by decide)

/-! ## Timers that were never started -/

/-- The elapsed cycles of a constructed timer that was never started. -/
theorem unstarted_elapsedCycles_eq (cfg : TimerConfig) (d : Nat) (hw : HwReading) :
    SWTimer_elapsedCycles cfg hw (SWTimer_construct cfg d)
      = toU64 ((hw.rollovers : Int) * ((cfg.LOADVALUE : Int) + 1) - (hw.counter : Int)) := by
  rw [elapsedCycles_eq]
  simp [SWTimer_construct]

/-- C19, the code at a failing input: on the sample clock, five cycles after the counter
was loaded with `LOADVALUE` (counter `LOADVALUE - 5`, no rollover yet), a constructed
timer that was never started reports `2 ^ 64 - (LOADVALUE - 5)` elapsed cycles, while
`r1 * (LOADVALUE + 1) + (LOADVALUE - c1)` is 5. -/
theorem unstarted_elapsedCycles_at_five :
    SWTimer_elapsedCycles sampleConfig ⟨4294967290, 0⟩ (SWTimer_construct sampleConfig 1000)
        = 18446744069414584326
      ∧ 0 * (sampleConfig.LOADVALUE + 1) + (sampleConfig.LOADVALUE - 4294967290) = 5 := by
  decide

/-- C20, the code at a failing input: on the sample clock, 101 cycles into the second
counter period (one rollover, counter `LOADVALUE - 100`), a one-second timer that was
never started reports the progress `101 / 48000000`, not 1. -/
theorem unstarted_percentElapsed_after_rollover :
    SWTimer_percentElapsed sampleConfig ⟨4294967195, 1⟩ (SWTimer_construct sampleConfig 1000)
        = 101 / 48000000
      ∧ SWTimer_percentElapsed sampleConfig ⟨4294967195, 1⟩
          (SWTimer_construct sampleConfig 1000) ≠ 1 := by
  have he : SWTimer_elapsedCycles sampleConfig ⟨4294967195, 1⟩
      (SWTimer_construct sampleConfig 1000) = 101 := by decide
  have hc : (SWTimer_construct sampleConfig 1000).cyclesToWait = 48000000 := by decide
  have hv : SWTimer_percentElapsed sampleConfig ⟨4294967195, 1⟩
      (SWTimer_construct sampleConfig 1000) = 101 / 48000000 := by
    unfold SWTimer_percentElapsed
    rw [he, hc]
    norm_num
  refine ⟨hv, ?_⟩
  rw [hv]
  norm_num

/-! ## What each handler leaves alone -/

theorem loop_title (cfg : TimerConfig) (inp : Inputs) (app : App_GuessTheColor)
    (hal : HAL) (h : app.state = TITLE_SCREEN) :
    App_GuessTheColor_loop cfg inp app hal
      = some (App_GuessTheColor_handleTitleScreen cfg inp app hal) := by
  simp [App_GuessTheColor_loop, h]

theorem loop_other (cfg : TimerConfig) (inp : Inputs) (app : App_GuessTheColor)
    (hal : HAL) (h : 4 ≤ app.state) :
    App_GuessTheColor_loop cfg inp app hal = some (app, hal) := by
  have h0 : app.state ≠ 0 := by omega
  have h1 : app.state ≠ 1 := by omega
  have h2 : app.state ≠ 2 := by omega
  have h3 : app.state ≠ 3 := by omega
  simp [App_GuessTheColor_loop, TITLE_SCREEN, INSTRUCTIONS_SCREEN, GAME_SCREEN,
    RESULT_SCREEN, h0, h1, h2, h3]

theorem handleTitleScreen_frame (cfg : TimerConfig) (inp : Inputs)
    (app : App_GuessTheColor) (hal : HAL) :
    (App_GuessTheColor_handleTitleScreen cfg inp app hal).1
        = { app with state := if SWTimer_expired cfg inp.hw app.timer
              then INSTRUCTIONS_SCREEN else app.state }
      ∧ (App_GuessTheColor_handleTitleScreen cfg inp app hal).2.boosterpackRed
          = hal.boosterpackRed
      ∧ (App_GuessTheColor_handleTitleScreen cfg inp app hal).2.boosterpackGreen
          = hal.boosterpackGreen
      ∧ (App_GuessTheColor_handleTitleScreen cfg inp app hal).2.boosterpackBlue
          = hal.boosterpackBlue := by
  unfold App_GuessTheColor_handleTitleScreen
  split_ifs <;> exact ⟨rfl, rfl, rfl, rfl⟩

theorem handleGameScreenMove_frame (inp : Inputs) (app : App_GuessTheColor) (hal : HAL) :
    (handleGameScreenMove inp app hal).1.state = app.state
      ∧ (handleGameScreenMove inp app hal).1.randomNumberChoice = app.randomNumberChoice
      ∧ (handleGameScreenMove inp app hal).2.boosterpackRed = hal.boosterpackRed
      ∧ (handleGameScreenMove inp app hal).2.boosterpackGreen = hal.boosterpackGreen
      ∧ (handleGameScreenMove inp app hal).2.boosterpackBlue = hal.boosterpackBlue := by
  unfold handleGameScreenMove
  split_ifs <;> exact ⟨rfl, rfl, rfl, rfl, rfl⟩

theorem handleGameScreenSelect_frame (cfg : TimerConfig) (inp : Inputs)
    (app : App_GuessTheColor) (hal : HAL) :
    ((handleGameScreenSelect cfg inp app hal).1.state = app.state
        ∨ (handleGameScreenSelect cfg inp app hal).1.state = RESULT_SCREEN)
      ∧ (handleGameScreenSelect cfg inp app hal).1.randomNumberChoice
          = app.randomNumberChoice
      ∧ (handleGameScreenSelect cfg inp app hal).2.boosterpackRed = hal.boosterpackRed
      ∧ (handleGameScreenSelect cfg inp app hal).2.boosterpackGreen = hal.boosterpackGreen
      ∧ (handleGameScreenSelect cfg inp app hal).2.boosterpackBlue = hal.boosterpackBlue := by
  have hshow := showResultScreen_leds
  unfold handleGameScreenSelect
  split_ifs <;> simp [hshow]

theorem handleGameScreen_frame (cfg : TimerConfig) (inp : Inputs)
    (app : App_GuessTheColor) (hal : HAL) :
    ((App_GuessTheColor_handleGameScreen cfg inp app hal).1.state = app.state
        ∨ (App_GuessTheColor_handleGameScreen cfg inp app hal).1.state = RESULT_SCREEN)
      ∧ (App_GuessTheColor_handleGameScreen cfg inp app hal).1.randomNumberChoice
          = app.randomNumberChoice
      ∧ (App_GuessTheColor_handleGameScreen cfg inp app hal).2.boosterpackRed
          = hal.boosterpackRed
      ∧ (App_GuessTheColor_handleGameScreen cfg inp app hal).2.boosterpackGreen
          = hal.boosterpackGreen
      ∧ (App_GuessTheColor_handleGameScreen cfg inp app hal).2.boosterpackBlue
          = hal.boosterpackBlue := by
  unfold App_GuessTheColor_handleGameScreen
  obtain ⟨hm1, hm2, hm3, hm4, hm5⟩ := handleGameScreenMove_frame inp app hal
  obtain ⟨hs1, hs2, hs3, hs4, hs5⟩ := handleGameScreenSelect_frame cfg inp
    (handleGameScreenMove inp app hal).1 (handleGameScreenMove inp app hal).2
  rw [hm1] at hs1
  rw [hm2] at hs2
  rw [hm3] at hs3
  rw [hm4] at hs4
  rw [hm5] at hs5
  exact ⟨hs1, hs2, hs3, hs4, hs5⟩

theorem handleResultScreen_frame (cfg : TimerConfig) (inp : Inputs)
    (app : App_GuessTheColor) (hal : HAL) :
    ((App_GuessTheColor_handleResultScreen cfg inp app hal) = (app, hal)
        ∨ (App_GuessTheColor_handleResultScreen cfg inp app hal).1.state
            = INSTRUCTIONS_SCREEN)
      ∧ (App_GuessTheColor_handleResultScreen cfg inp app hal).1.randomNumberChoice
          = app.randomNumberChoice := by
  unfold App_GuessTheColor_handleResultScreen
  split_ifs <;> simp [App_GuessTheColor_initGameVariables]

theorem handleInstructionsScreen_frame (inp : Inputs) (app : App_GuessTheColor)
    (hal : HAL) (s1 : App_GuessTheColor × HAL)
    (h : App_GuessTheColor_handleInstructionsScreen inp app hal = some s1) :
    s1 = (app, hal) ∨ s1.1.state = GAME_SCREEN := by
  unfold App_GuessTheColor_handleInstructionsScreen at h
  split at h
  · dsimp only at h
    cases hv : randomNumbersAt app.randomNumbers app.randomNumberChoice with
    | none => simp [hv] at h
    | some v =>
      simp only [hv, Option.some.injEq] at h
      subst h
      exact Or.inr rfl
  · simp only [Option.some.injEq] at h
    exact Or.inl h.symm

/-- The screens between which one iteration can move. -/
theorem loop_state_cases (cfg : TimerConfig) (inp : Inputs) (app : App_GuessTheColor)
    (hal : HAL) (s1 : App_GuessTheColor × HAL)
    (h : App_GuessTheColor_loop cfg inp app hal = some s1) :
    s1.1.state = app.state
      ∨ (app.state = TITLE_SCREEN ∧ s1.1.state = INSTRUCTIONS_SCREEN)
      ∨ (app.state = INSTRUCTIONS_SCREEN ∧ s1.1.state = GAME_SCREEN)
      ∨ (app.state = GAME_SCREEN ∧ s1.1.state = RESULT_SCREEN)
      ∨ (app.state = RESULT_SCREEN ∧ s1.1.state = INSTRUCTIONS_SCREEN) := by
  have hcases : app.state = TITLE_SCREEN ∨ app.state = INSTRUCTIONS_SCREEN
      ∨ app.state = GAME_SCREEN ∨ app.state = RESULT_SCREEN ∨ 4 ≤ app.state := by
    unfold TITLE_SCREEN INSTRUCTIONS_SCREEN GAME_SCREEN RESULT_SCREEN
    omega
  rcases hcases with h' | h' | h' | h' | h'
  · rw [loop_title cfg inp app hal h', Option.some.injEq] at h
    subst h
    rw [(handleTitleScreen_frame cfg inp app hal).1]
    by_cases he : SWTimer_expired cfg inp.hw app.timer = true
    · exact Or.inr (Or.inl ⟨h', by simp [he]⟩)
    · exact Or.inl (by simp [he])
  · rw [loop_instructions cfg inp app hal h'] at h
    rcases handleInstructionsScreen_frame inp app hal s1 h with hs | hs
    · exact Or.inl (by rw [hs])
    · exact Or.inr (Or.inr (Or.inl ⟨h', hs⟩))
  · rw [loop_game cfg inp app hal h', Option.some.injEq] at h
    subst h
    rcases (handleGameScreen_frame cfg inp app hal).1 with hs | hs
    · exact Or.inl hs
    · exact Or.inr (Or.inr (Or.inr (Or.inl ⟨h', hs⟩)))
  · rw [loop_result cfg inp app hal h', Option.some.injEq] at h
    subst h
    rcases (handleResultScreen_frame cfg inp app hal).1 with hs | hs
    · exact Or.inl (by rw [hs])
    · exact Or.inr (Or.inr (Or.inr (Or.inr ⟨h', hs⟩)))
  · rw [loop_other cfg inp app hal h', Option.some.injEq] at h
    subst h
    exact Or.inl rfl

/-- An execution that is off the title screen stays off it. -/
theorem mainLoop_not_title (cfg : TimerConfig) (inps : List Inputs) :
    ∀ (s s2 : App_GuessTheColor × HAL), s.1.state ≠ TITLE_SCREEN →
      mainLoop cfg inps s = some s2 → s2.1.state ≠ TITLE_SCREEN := by
  induction inps with
  | nil =>
    intro s s2 hne h
    simp only [mainLoop, Option.some.injEq] at h
    exact h ▸ hne
  | cons inp rest ih =>
    intro s s2 hne h
    simp only [mainLoop] at h
    cases hstep : App_GuessTheColor_loop cfg inp s.1 s.2 with
    | none => simp [hstep] at h
    | some s1 =>
      simp only [hstep] at h
      refine ih s1 s2 ?_ h
      have hc := loop_state_cases cfg inp s.1 s.2 s1 hstep
      simp only [TITLE_SCREEN, INSTRUCTIONS_SCREEN, GAME_SCREEN, RESULT_SCREEN] at hc hne ⊢
      omega

/-- Iterations that all begin on the game screen change neither the LEDs nor the index
into the table. -/
theorem mainLoop_game_frame (cfg : TimerConfig) (inps : List Inputs) :
    ∀ (s s2 : App_GuessTheColor × HAL), mainLoop cfg inps s = some s2 →
      (∀ q ∈ statesVisited cfg inps s, q = GAME_SCREEN) →
      ledPattern s2.2 = ledPattern s.2
        ∧ s2.1.randomNumberChoice = s.1.randomNumberChoice := by
  induction inps with
  | nil =>
    intro s s2 h _
    simp only [mainLoop, Option.some.injEq] at h
    subst h
    exact ⟨rfl, rfl⟩
  | cons inp rest ih =>
    intro s s2 h hall
    have hS : s.1.state = GAME_SCREEN := hall _ (by simp [statesVisited])
    have hstep := loop_game cfg inp s.1 s.2 hS
    simp only [mainLoop, hstep] at h
    have htail : ∀ q ∈ statesVisited cfg rest
        (App_GuessTheColor_handleGameScreen cfg inp s.1 s.2), q = GAME_SCREEN := by
      intro q hq
      apply hall
      simp [statesVisited, hstep, hq]
    obtain ⟨hl, hr⟩ := ih _ s2 h htail
    obtain ⟨-, f2, f3, f4, f5⟩ := handleGameScreen_frame cfg inp s.1 s.2
    refine ⟨?_, hr.trans f2⟩
    rw [hl]
    simp [ledPattern, f3, f4, f5]

/-- An iteration that changes the lit state of an LED is the advance to the game screen
or the reset after the result screen. -/
theorem loop_leds_change (cfg : TimerConfig) (inp : Inputs) (app : App_GuessTheColor)
    (hal : HAL) (s1 : App_GuessTheColor × HAL)
    (h : App_GuessTheColor_loop cfg inp app hal = some s1)
    (hne : ledPattern s1.2 ≠ ledPattern hal) :
    (app.state = INSTRUCTIONS_SCREEN ∧ s1.1.state = GAME_SCREEN)
      ∨ (app.state = RESULT_SCREEN ∧ s1.1.state = INSTRUCTIONS_SCREEN) := by
  have hcases : app.state = TITLE_SCREEN ∨ app.state = INSTRUCTIONS_SCREEN
      ∨ app.state = GAME_SCREEN ∨ app.state = RESULT_SCREEN ∨ 4 ≤ app.state := by
    unfold TITLE_SCREEN INSTRUCTIONS_SCREEN GAME_SCREEN RESULT_SCREEN
    omega
  rcases hcases with h' | h' | h' | h' | h'
  · rw [loop_title cfg inp app hal h', Option.some.injEq] at h
    subst h
    obtain ⟨-, f1, f2, f3⟩ := handleTitleScreen_frame cfg inp app hal
    exact absurd (by simp [ledPattern, f1, f2, f3]) hne
  · rw [loop_instructions cfg inp app hal h'] at h
    rcases handleInstructionsScreen_frame inp app hal s1 h with hs | hs
    · exact absurd (by rw [hs]) hne
    · exact Or.inl ⟨h', hs⟩
  · rw [loop_game cfg inp app hal h', Option.some.injEq] at h
    subst h
    obtain ⟨-, -, f1, f2, f3⟩ := handleGameScreen_frame cfg inp app hal
    exact absurd (by simp [ledPattern, f1, f2, f3]) hne
  · rw [loop_result cfg inp app hal h', Option.some.injEq] at h
    subst h
    rcases (handleResultScreen_frame cfg inp app hal).1 with hs | hs
    · exact absurd (by rw [hs]) hne
    · exact Or.inr ⟨h', hs⟩
  · rw [loop_other cfg inp app hal h', Option.some.injEq] at h
    subst h
    exact absurd rfl hne

/-! ## The title screen and the order of the screens -/

/-- C12: on the title screen an iteration moves to the instructions screen when the
session timer has expired and stays on the title screen when it has not; either way the
cursor, the selection flags, `randomNumberChoice` and the LEDs are unchanged and the
outcome does not depend on the buttons. The timer of a fresh session is the 1000 ms
timer started at construction. -/
theorem titleScreen_tick (cfg : TimerConfig) (inp : Inputs) (app : App_GuessTheColor)
    (hal : HAL) (hS : app.state = TITLE_SCREEN) :
    ∃ (s1 : App_GuessTheColor × HAL),
      App_GuessTheColor_loop cfg inp app hal = some s1
        ∧ (SWTimer_expired cfg inp.hw app.timer = true → s1.1.state = INSTRUCTIONS_SCREEN)
        ∧ (SWTimer_expired cfg inp.hw app.timer = false → s1.1.state = TITLE_SCREEN)
        ∧ s1.1.cursor = app.cursor
        ∧ s1.1.redSelected = app.redSelected
        ∧ s1.1.greenSelected = app.greenSelected
        ∧ s1.1.blueSelected = app.blueSelected
        ∧ s1.1.randomNumberChoice = app.randomNumberChoice
        ∧ LED_isLit s1.2.boosterpackRed = LED_isLit hal.boosterpackRed
        ∧ LED_isLit s1.2.boosterpackGreen = LED_isLit hal.boosterpackGreen
        ∧ LED_isLit s1.2.boosterpackBlue = LED_isLit hal.boosterpackBlue
        ∧ (∀ (b1 b2 : Bool),
            App_GuessTheColor_loop cfg
              { boosterpackS1 := b1, boosterpackS2 := b2, hw := inp.hw } app hal = some s1)
        ∧ (∀ (hw0 : HwReading) (hal0 : HAL),
            (App_GuessTheColor_construct cfg hw0 hal0).1.state = TITLE_SCREEN
              ∧ (App_GuessTheColor_construct cfg hw0 hal0).1.timer
                = SWTimer_start hw0 (SWTimer_construct cfg 1000)) := by
  obtain ⟨f0, f1, f2, f3⟩ := handleTitleScreen_frame cfg inp app hal
  refine ⟨_, loop_title cfg inp app hal hS, ?_, ?_, ?_, ?_, ?_, ?_, ?_, ?_, ?_, ?_, ?_, ?_⟩
  · intro he
    rw [f0]
    simp [he]
  · intro he
    rw [f0]
    simp [he, hS]
  · rw [f0]
  · rw [f0]
  · rw [f0]
  · rw [f0]
  · rw [f0]
  · rw [f1]
  · rw [f2]
  · rw [f3]
  · intro b1 b2
    rw [loop_title cfg _ app hal hS]
    rfl
  · intro hw0 hal0
    exact ⟨rfl, rfl⟩

/-- Witness for C12: the freshly constructed sample session, polled one rollover later. -/
theorem titleScreen_tick_witness :
    ∃ (s1 : App_GuessTheColor × HAL),
      App_GuessTheColor_loop sampleConfig sampleLateTick sampleTitleSession.1
          sampleTitleSession.2 = some s1
        ∧ (SWTimer_expired sampleConfig sampleLateTick.hw sampleTitleSession.1.timer = true →
            s1.1.state = INSTRUCTIONS_SCREEN)
        ∧ (SWTimer_expired sampleConfig sampleLateTick.hw sampleTitleSession.1.timer = false →
            s1.1.state = TITLE_SCREEN)
        ∧ s1.1.cursor = sampleTitleSession.1.cursor
        ∧ s1.1.redSelected = sampleTitleSession.1.redSelected
        ∧ s1.1.greenSelected = sampleTitleSession.1.greenSelected
        ∧ s1.1.blueSelected = sampleTitleSession.1.blueSelected
        ∧ s1.1.randomNumberChoice = sampleTitleSession.1.randomNumberChoice
        ∧ LED_isLit s1.2.boosterpackRed = LED_isLit sampleTitleSession.2.boosterpackRed
        ∧ LED_isLit s1.2.boosterpackGreen = LED_isLit sampleTitleSession.2.boosterpackGreen
        ∧ LED_isLit s1.2.boosterpackBlue = LED_isLit sampleTitleSession.2.boosterpackBlue
        ∧ (∀ (b1 b2 : Bool),
            App_GuessTheColor_loop sampleConfig
              { boosterpackS1 := b1, boosterpackS2 := b2, hw := sampleLateTick.hw }
              sampleTitleSession.1 sampleTitleSession.2 = some s1)
        ∧ (∀ (hw0 : HwReading) (hal0 : HAL),
            (App_GuessTheColor_construct sampleConfig hw0 hal0).1.state = TITLE_SCREEN
              ∧ (App_GuessTheColor_construct sampleConfig hw0 hal0).1.timer
                = SWTimer_start hw0 (SWTimer_construct sampleConfig 1000)) :=
  titleScreen_tick sampleConfig sampleLateTick sampleTitleSession.1 sampleTitleSession.2 rfl

/-- C13: one iteration leaves the state as it is or moves from the title to the
instructions screen, from the instructions to the game screen, from the game to the
result screen, or from the result to the instructions screen; so an execution that is
off the title screen never comes back to it. -/
theorem loop_transitions (cfg : TimerConfig) (inp : Inputs) (app : App_GuessTheColor)
    (hal : HAL) (s1 : App_GuessTheColor × HAL)
    (h : App_GuessTheColor_loop cfg inp app hal = some s1) :
    (s1.1.state = app.state
        ∨ (app.state = TITLE_SCREEN ∧ s1.1.state = INSTRUCTIONS_SCREEN)
        ∨ (app.state = INSTRUCTIONS_SCREEN ∧ s1.1.state = GAME_SCREEN)
        ∨ (app.state = GAME_SCREEN ∧ s1.1.state = RESULT_SCREEN)
        ∨ (app.state = RESULT_SCREEN ∧ s1.1.state = INSTRUCTIONS_SCREEN))
      ∧ (∀ (inps : List Inputs) (s s2 : App_GuessTheColor × HAL),
          s.1.state ≠ TITLE_SCREEN → mainLoop cfg inps s = some s2 →
          s2.1.state ≠ TITLE_SCREEN)
      ∧ (∀ (hw0 : HwReading) (hal0 : HAL) (before later : List Inputs)
          (s s2 : App_GuessTheColor × HAL),
          mainLoop cfg before (App_GuessTheColor_construct cfg hw0 hal0) = some s →
          s.1.state ≠ TITLE_SCREEN → mainLoop cfg later s = some s2 →
          s2.1.state ≠ TITLE_SCREEN) :=
  ⟨loop_state_cases cfg inp app hal s1 h,
    fun inps s s2 hne hrun => mainLoop_not_title cfg inps s s2 hne hrun,
    fun _ _ _ later s s2 _ hne hrun => mainLoop_not_title cfg later s s2 hne hrun⟩

/-- Witness for C13: the iteration that takes the sample session off the title screen. -/
theorem loop_transitions_witness :
    (sampleInstructionsSession.1.state = sampleTitleSession.1.state
        ∨ (sampleTitleSession.1.state = TITLE_SCREEN
            ∧ sampleInstructionsSession.1.state = INSTRUCTIONS_SCREEN)
        ∨ (sampleTitleSession.1.state = INSTRUCTIONS_SCREEN
            ∧ sampleInstructionsSession.1.state = GAME_SCREEN)
        ∨ (sampleTitleSession.1.state = GAME_SCREEN
            ∧ sampleInstructionsSession.1.state = RESULT_SCREEN)
        ∨ (sampleTitleSession.1.state = RESULT_SCREEN
            ∧ sampleInstructionsSession.1.state = INSTRUCTIONS_SCREEN))
      ∧ (∀ (inps : List Inputs) (s s2 : App_GuessTheColor × HAL),
          s.1.state ≠ TITLE_SCREEN → mainLoop sampleConfig inps s = some s2 →
          s2.1.state ≠ TITLE_SCREEN)
      ∧ (∀ (hw0 : HwReading) (hal0 : HAL) (before later : List Inputs)
          (s s2 : App_GuessTheColor × HAL),
          mainLoop sampleConfig before (App_GuessTheColor_construct sampleConfig hw0 hal0)
            = some s →
          s.1.state ≠ TITLE_SCREEN → mainLoop sampleConfig later s = some s2 →
          s2.1.state ≠ TITLE_SCREEN) :=
  loop_transitions sampleConfig sampleLateTick sampleTitleSession.1 sampleTitleSession.2
    sampleInstructionsSession rfl

/-- C14: an iteration on the game screen, whatever the buttons, leaves the lit state of
the three LEDs and `randomNumberChoice` unchanged; so they are unchanged after any
number of iterations that begin on the game screen, the one that computes the result
included, and an iteration that does change an LED is the advance to the game screen
or the reset after the result screen. -/
theorem gameScreen_leds_frame (cfg : TimerConfig) (inp : Inputs) (app : App_GuessTheColor)
    (hal : HAL) (hS : app.state = GAME_SCREEN) :
    (∃ (s1 : App_GuessTheColor × HAL),
      App_GuessTheColor_loop cfg inp app hal = some s1
        ∧ LED_isLit s1.2.boosterpackRed = LED_isLit hal.boosterpackRed
        ∧ LED_isLit s1.2.boosterpackGreen = LED_isLit hal.boosterpackGreen
        ∧ LED_isLit s1.2.boosterpackBlue = LED_isLit hal.boosterpackBlue
        ∧ s1.1.randomNumberChoice = app.randomNumberChoice)
      ∧ (∀ (inps : List Inputs) (s2 : App_GuessTheColor × HAL),
          mainLoop cfg inps (app, hal) = some s2 →
          (∀ q ∈ statesVisited cfg inps (app, hal), q = GAME_SCREEN) →
          ledPattern s2.2 = ledPattern hal
            ∧ s2.1.randomNumberChoice = app.randomNumberChoice)
      ∧ (∀ (inp1 : Inputs) (app1 : App_GuessTheColor) (hal1 : HAL)
          (s1 : App_GuessTheColor × HAL),
          App_GuessTheColor_loop cfg inp1 app1 hal1 = some s1 →
          ledPattern s1.2 ≠ ledPattern hal1 →
          (app1.state = INSTRUCTIONS_SCREEN ∧ s1.1.state = GAME_SCREEN)
            ∨ (app1.state = RESULT_SCREEN ∧ s1.1.state = INSTRUCTIONS_SCREEN)) := by
  obtain ⟨-, f2, f3, f4, f5⟩ := handleGameScreen_frame cfg inp app hal
  refine ⟨⟨_, loop_game cfg inp app hal hS, ?_, ?_, ?_, f2⟩, ?_, ?_⟩
  · rw [f3]
  · rw [f4]
  · rw [f5]
  · intro inps s2 hrun hall
    exact mainLoop_game_frame cfg inps (app, hal) s2 hrun hall
  · intro inp1 app1 hal1 s1 hstep hne
    exact loop_leds_change cfg inp1 app1 hal1 s1 hstep hne

/-- Witness for C14: the sample game session with S1 tapped on Red. -/
theorem gameScreen_leds_frame_witness :
    (∃ (s1 : App_GuessTheColor × HAL),
      App_GuessTheColor_loop sampleConfig (tapS1 ⟨70, 2⟩) (sampleGameSession 0).1
          (sampleGameSession 0).2 = some s1
        ∧ LED_isLit s1.2.boosterpackRed = LED_isLit (sampleGameSession 0).2.boosterpackRed
        ∧ LED_isLit s1.2.boosterpackGreen
            = LED_isLit (sampleGameSession 0).2.boosterpackGreen
        ∧ LED_isLit s1.2.boosterpackBlue = LED_isLit (sampleGameSession 0).2.boosterpackBlue
        ∧ s1.1.randomNumberChoice = (sampleGameSession 0).1.randomNumberChoice)
      ∧ (∀ (inps : List Inputs) (s2 : App_GuessTheColor × HAL),
          mainLoop sampleConfig inps ((sampleGameSession 0).1, (sampleGameSession 0).2)
            = some s2 →
          (∀ q ∈ statesVisited sampleConfig inps
              ((sampleGameSession 0).1, (sampleGameSession 0).2), q = GAME_SCREEN) →
          ledPattern s2.2 = ledPattern (sampleGameSession 0).2
            ∧ s2.1.randomNumberChoice = (sampleGameSession 0).1.randomNumberChoice)
      ∧ (∀ (inp1 : Inputs) (app1 : App_GuessTheColor) (hal1 : HAL)
          (s1 : App_GuessTheColor × HAL),
          App_GuessTheColor_loop sampleConfig inp1 app1 hal1 = some s1 →
          ledPattern s1.2 ≠ ledPattern hal1 →
          (app1.state = INSTRUCTIONS_SCREEN ∧ s1.1.state = GAME_SCREEN)
            ∨ (app1.state = RESULT_SCREEN ∧ s1.1.state = INSTRUCTIONS_SCREEN)) :=
  gameScreen_leds_frame sampleConfig (tapS1 ⟨70, 2⟩) (sampleGameSession 0).1
    (sampleGameSession 0).2 rfl

/-! ## The index into the table -/

/-- The advance to the game screen lights the pattern of the current table entry and
moves the index on by one, modulo five. -/
theorem advance_pattern (cfg : TimerConfig) (inp : Inputs) (s s1 : App_GuessTheColor × HAL)
    (hInv : SessionInv s) (hS : s.1.state = INSTRUCTIONS_SCREEN)
    (h : App_GuessTheColor_loop cfg inp s.1 s.2 = some s1)
    (hG : s1.1.state = GAME_SCREEN) :
    ledPattern s1.2 = tablePattern s.1.randomNumberChoice
      ∧ s1.1.randomNumberChoice = (s.1.randomNumberChoice + 1) % 5 := by
  obtain ⟨hT, h0, h5, -, -, hLow⟩ := hInv
  obtain ⟨⟨state, timer, rs, gs, bs, cursor, table, rnc⟩, ⟨⟨rl, rp, rq⟩, ⟨bl, bp, bq⟩,
    ⟨gl, gp, gq⟩, ⟨cmds⟩⟩⟩ := s
  simp only at hT h0 h5 hLow hS h
  obtain ⟨hr, hg, hb, -⟩ := hLow (by rw [hS]; decide)
  subst hT hS hr hg hb
  rw [loop_instructions cfg inp _ _ rfl] at h
  by_cases hTap : inp.boosterpackS2 = true
  · have hcases : rnc = 0 ∨ rnc = 1 ∨ rnc = 2 ∨ rnc = 3 ∨ rnc = 4 := by omega
    rcases hcases with hc | hc | hc | hc | hc <;> subst hc <;>
      simp +decide [App_GuessTheColor_handleInstructionsScreen, hTap, randomNumbersAt,
        NUM_RANDOM_NUMBERS, toU32, BIT0, BIT1, BIT2, LED_turnOn] at h <;>
      subst h <;> exact ⟨rfl, rfl⟩
  · simp only [App_GuessTheColor_handleInstructionsScreen, hTap, Bool.false_eq_true,
      if_false, Option.some.injEq] at h
    subst h
    simp [INSTRUCTIONS_SCREEN, GAME_SCREEN] at hG

/-- Apart from the advance to the game screen no iteration changes the index. -/
theorem loop_index_frame (cfg : TimerConfig) (inp : Inputs) (app : App_GuessTheColor)
    (hal : HAL) (s1 : App_GuessTheColor × HAL)
    (h : App_GuessTheColor_loop cfg inp app hal = some s1)
    (hne : ¬ (app.state = INSTRUCTIONS_SCREEN ∧ s1.1.state = GAME_SCREEN)) :
    s1.1.randomNumberChoice = app.randomNumberChoice := by
  have hcases : app.state = TITLE_SCREEN ∨ app.state = INSTRUCTIONS_SCREEN
      ∨ app.state = GAME_SCREEN ∨ app.state = RESULT_SCREEN ∨ 4 ≤ app.state := by
    unfold TITLE_SCREEN INSTRUCTIONS_SCREEN GAME_SCREEN RESULT_SCREEN
    omega
  rcases hcases with h' | h' | h' | h' | h'
  · rw [loop_title cfg inp app hal h', Option.some.injEq] at h
    subst h
    rw [(handleTitleScreen_frame cfg inp app hal).1]
  · rw [loop_instructions cfg inp app hal h'] at h
    rcases handleInstructionsScreen_frame inp app hal s1 h with hs | hs
    · rw [hs]
    · exact absurd ⟨h', hs⟩ hne
  · rw [loop_game cfg inp app hal h', Option.some.injEq] at h
    subst h
    exact (handleGameScreen_frame cfg inp app hal).2.1
  · rw [loop_result cfg inp app hal h', Option.some.injEq] at h
    subst h
    exact (handleResultScreen_frame cfg inp app hal).2
  · rw [loop_other cfg inp app hal h', Option.some.injEq] at h
    subst h
    rfl

/-- In an execution from a session that satisfies the invariant, the `k`-th round that
starts shows the pattern of the table entry `k` places after the current index. -/
theorem roundPatterns_get (cfg : TimerConfig) (inps : List Inputs) :
    ∀ (s : App_GuessTheColor × HAL), SessionInv s →
      ∀ (k : Nat) (p : Bool × Bool × Bool), (roundPatterns cfg inps s)[k]? = some p →
        p = tablePattern ((s.1.randomNumberChoice + (k : Int)) % 5) := by
  induction inps with
  | nil =>
    intro s _ k p h
    simp [roundPatterns] at h
  | cons inp rest ih =>
    intro s hInv k p h
    obtain ⟨-, h0, h5, -⟩ := id hInv
    simp only [roundPatterns] at h
    cases hstep : App_GuessTheColor_loop cfg inp s.1 s.2 with
    | none => simp [hstep] at h
    | some s1 =>
      simp only [hstep] at h
      have hInv1 := loop_inv cfg inp s s1 hInv hstep
      by_cases hadv : s.1.state = INSTRUCTIONS_SCREEN ∧ s1.1.state = GAME_SCREEN
      · obtain ⟨hp, hi⟩ := advance_pattern cfg inp s s1 hInv hadv.1 hstep hadv.2
        simp only [hadv, and_self, if_true] at h
        cases k with
        | zero =>
          simp only [List.getElem?_cons_zero, Option.some.injEq] at h
          rw [← h, hp]
          congr 1
          simp only [Nat.cast_zero, add_zero]
          omega
        | succ j =>
          simp only [List.getElem?_cons_succ] at h
          rw [ih s1 hInv1 j p h, hi]
          congr 1
          push_cast
          omega
      · simp only [hadv, if_false] at h
        rw [ih s1 hInv1 k p h, loop_index_frame cfg inp s.1 s.2 s1 hstep hadv]

/-- C11: the advance from the instructions screen to the game screen sets
`randomNumberChoice` to `(randomNumberChoice + 1) % NUM_RANDOM_NUMBERS`; five such steps
bring an index back to itself; and in every execution from the constructor the LED
pattern at the start of round `n + 5` is the one at the start of round `n`, namely the
pattern of the table entry `n % 5`. -/
theorem randomIndex_cycle (cfg : TimerConfig) (inp : Inputs) (app : App_GuessTheColor)
    (hal : HAL) (s1 : App_GuessTheColor × HAL)
    (hS : app.state = INSTRUCTIONS_SCREEN) (hTap : inp.boosterpackS2 = true)
    (h : App_GuessTheColor_loop cfg inp app hal = some s1) :
    s1.1.state = GAME_SCREEN
      ∧ s1.1.randomNumberChoice = (app.randomNumberChoice + 1) % NUM_RANDOM_NUMBERS
      ∧ (∀ (i : Int), 0 ≤ i → i < NUM_RANDOM_NUMBERS →
          (fun j => (j + 1) % NUM_RANDOM_NUMBERS)^[5] i = i)
      ∧ (∀ (hw0 : HwReading) (hal0 : HAL) (inps : List Inputs) (n : Nat)
          (p : Bool × Bool × Bool),
          (roundPatterns cfg inps (App_GuessTheColor_construct cfg hw0 hal0))[n]? = some p →
          p = tablePattern ((n : Int) % 5))
      ∧ (∀ (hw0 : HwReading) (hal0 : HAL) (inps : List Inputs) (n : Nat)
          (p : Bool × Bool × Bool),
          (roundPatterns cfg inps (App_GuessTheColor_construct cfg hw0 hal0))[n + 5]?
            = some p →
          (roundPatterns cfg inps (App_GuessTheColor_construct cfg hw0 hal0))[n]?
            = some p) := by
  have hget : ∀ (hw0 : HwReading) (hal0 : HAL) (inps : List Inputs) (n : Nat)
      (p : Bool × Bool × Bool),
      (roundPatterns cfg inps (App_GuessTheColor_construct cfg hw0 hal0))[n]? = some p →
      p = tablePattern ((n : Int) % 5) := by
    intro hw0 hal0 inps n p hp
    have := roundPatterns_get cfg inps _ (construct_inv cfg hw0 hal0) n p hp
    simpa [App_GuessTheColor_construct, App_GuessTheColor_initGameVariables] using this
  refine ⟨?_, ?_, ?_, hget, ?_⟩
  · rw [loop_instructions cfg inp app hal hS] at h
    rcases handleInstructionsScreen_frame inp app hal s1 h with hs | hs
    · unfold App_GuessTheColor_handleInstructionsScreen at h
      simp only [hTap, if_true] at h
      cases hv : randomNumbersAt app.randomNumbers app.randomNumberChoice with
      | none => simp [hv] at h
      | some v =>
        simp only [hv, Option.some.injEq] at h
        rw [← h]
    · exact hs
  · rw [loop_instructions cfg inp app hal hS] at h
    unfold App_GuessTheColor_handleInstructionsScreen at h
    simp only [hTap, if_true] at h
    cases hv : randomNumbersAt app.randomNumbers app.randomNumberChoice with
    | none => simp [hv] at h
    | some v =>
      simp only [hv, Option.some.injEq] at h
      have hr : 0 ≤ app.randomNumberChoice ∧ app.randomNumberChoice < NUM_RANDOM_NUMBERS := by
        unfold randomNumbersAt at hv
        by_contra hc
        simp [hc] at hv
      rw [← h]
      exact Int.tmod_eq_emod (by omega) (by decide)
  · intro i h0 h5
    unfold NUM_RANDOM_NUMBERS at h5 ⊢
    have hcases : i = 0 ∨ i = 1 ∨ i = 2 ∨ i = 3 ∨ i = 4 := by omega
    rcases hcases with hc | hc | hc | hc | hc <;> subst hc <;> decide
  · intro hw0 hal0 inps n p hp
    have hlen : n + 5 < (roundPatterns cfg inps
        (App_GuessTheColor_construct cfg hw0 hal0)).length := by
      by_contra hc
      rw [List.getElem?_eq_none (not_lt.mp hc)] at hp
      exact absurd hp (by simp)
    have hn : n < (roundPatterns cfg inps
        (App_GuessTheColor_construct cfg hw0 hal0)).length := by omega
    rw [List.getElem?_eq_getElem hn, Option.some.injEq]
    have h1 := hget hw0 hal0 inps n _ (List.getElem?_eq_getElem hn)
    have h2 := hget hw0 hal0 inps (n + 5) p hp
    rw [h1, h2]
    congr 1
    push_cast
    omega

/-- Witness for C11: the advance tap that starts the first round of the sample session. -/
theorem randomIndex_cycle_witness :
    sampleRoundSession.1.state = GAME_SCREEN
      ∧ sampleRoundSession.1.randomNumberChoice
          = (sampleInstructionsSession.1.randomNumberChoice + 1) % NUM_RANDOM_NUMBERS
      ∧ (∀ (i : Int), 0 ≤ i → i < NUM_RANDOM_NUMBERS →
          (fun j => (j + 1) % NUM_RANDOM_NUMBERS)^[5] i = i)
      ∧ (∀ (hw0 : HwReading) (hal0 : HAL) (inps : List Inputs) (n : Nat)
          (p : Bool × Bool × Bool),
          (roundPatterns sampleConfig inps
              (App_GuessTheColor_construct sampleConfig hw0 hal0))[n]? = some p →
          p = tablePattern ((n : Int) % 5))
      ∧ (∀ (hw0 : HwReading) (hal0 : HAL) (inps : List Inputs) (n : Nat)
          (p : Bool × Bool × Bool),
          (roundPatterns sampleConfig inps
              (App_GuessTheColor_construct sampleConfig hw0 hal0))[n + 5]? = some p →
          (roundPatterns sampleConfig inps
              (App_GuessTheColor_construct sampleConfig hw0 hal0))[n]? = some p) :=
  randomIndex_cycle sampleConfig (tapS2 ⟨90, 1⟩) sampleInstructionsSession.1
    sampleInstructionsSession.2 sampleRoundSession rfl rfl rfl

/-! ## Values outside the enumerations -/

/-- C22: with a state that is none of the four screens an iteration leaves the session
and the HAL, LEDs included, as they are; and so does an iteration on the game screen
with S1 tapped, S2 not tapped and a cursor that is none of the four entries. -/
theorem loop_default_noop (cfg : TimerConfig) (inp : Inputs) (app : App_GuessTheColor)
    (hal : HAL) :
    (app.state ≠ TITLE_SCREEN → app.state ≠ INSTRUCTIONS_SCREEN → app.state ≠ GAME_SCREEN →
        app.state ≠ RESULT_SCREEN → App_GuessTheColor_loop cfg inp app hal = some (app, hal))
      ∧ (app.state = GAME_SCREEN → inp.boosterpackS1 = true → inp.boosterpackS2 = false →
        app.cursor ≠ CURSOR_0 → app.cursor ≠ CURSOR_1 → app.cursor ≠ CURSOR_2 →
        app.cursor ≠ CURSOR_3 → App_GuessTheColor_loop cfg inp app hal = some (app, hal)) := by
  constructor
  · intro h0 h1 h2 h3
    simp [App_GuessTheColor_loop, h0, h1, h2, h3]
  · intro hS h1 h2 c0 c1 c2 c3
    rw [loop_game cfg inp app hal hS]
    simp [App_GuessTheColor_handleGameScreen, handleGameScreenMove, handleGameScreenSelect,
      h1, h2, c0, c1, c2, c3]

/-- Witness for C22: the state value 7, and the game screen with the cursor value 9. -/
theorem loop_default_noop_witness :
    App_GuessTheColor_loop sampleConfig (tapS2 ⟨60, 2⟩)
        { (sampleGameSession 1).1 with state := 7 } (sampleGameSession 1).2
        = some ({ (sampleGameSession 1).1 with state := 7 }, (sampleGameSession 1).2)
      ∧ App_GuessTheColor_loop sampleConfig (tapS1 ⟨60, 2⟩) (sampleGameSession 9).1
          (sampleGameSession 9).2
        = some ((sampleGameSession 9).1, (sampleGameSession 9).2) :=
  ⟨(loop_default_noop sampleConfig (tapS2 ⟨60, 2⟩)
      { (sampleGameSession 1).1 with state := 7 } (sampleGameSession 1).2).1
      (by decide) (by decide) (by decide) (by decide),
    (loop_default_noop sampleConfig (tapS1 ⟨60, 2⟩) (sampleGameSession 9).1
      (sampleGameSession 9).2).2 rfl rfl rfl (by decide) (by decide) (by decide) (by decide)⟩

/-! ## Ranges of the cursor and of the index -/

/-- C24: in every session reachable from the constructor the cursor is below
`NUM_TEST_OPTIONS` and `randomNumberChoice` lies in `[0, NUM_RANDOM_NUMBERS)`, so the
read `randomNumbers[randomNumberChoice]` is inside the array and no iteration fails. -/
theorem reachable_ranges (cfg : TimerConfig) (s : App_GuessTheColor × HAL)
    (hR : Reachable cfg s) :
    s.1.cursor < NUM_TEST_OPTIONS
      ∧ 0 ≤ s.1.randomNumberChoice
      ∧ s.1.randomNumberChoice < NUM_RANDOM_NUMBERS
      ∧ (∃ (v : Int), randomNumbersAt s.1.randomNumbers s.1.randomNumberChoice = some v)
      ∧ (∀ (inp : Inputs), ∃ (s1 : App_GuessTheColor × HAL),
          App_GuessTheColor_loop cfg inp s.1 s.2 = some s1) := by
  obtain ⟨hT, h0, h5, hC, hS, -⟩ := reachable_inv cfg s hR
  have hv : ∃ (v : Int), randomNumbersAt s.1.randomNumbers s.1.randomNumberChoice = some v := by
    rw [hT]
    have hcases : s.1.randomNumberChoice = 0 ∨ s.1.randomNumberChoice = 1
        ∨ s.1.randomNumberChoice = 2 ∨ s.1.randomNumberChoice = 3
        ∨ s.1.randomNumberChoice = 4 := by omega
    rcases hcases with h | h | h | h | h <;> rw [h]
    · exact ⟨5, by decide⟩
    · exact ⟨2, by decide⟩
    · exact ⟨7, by decide⟩
    · exact ⟨1, by decide⟩
    · exact ⟨3, by decide⟩
  refine ⟨hC, h0, h5, hv, ?_⟩
  intro inp
  obtain ⟨v, hv⟩ := hv
  have hcases : s.1.state = TITLE_SCREEN ∨ s.1.state = INSTRUCTIONS_SCREEN
      ∨ s.1.state = GAME_SCREEN ∨ s.1.state = RESULT_SCREEN := by
    unfold TITLE_SCREEN INSTRUCTIONS_SCREEN GAME_SCREEN RESULT_SCREEN
    omega
  rcases hcases with h | h | h | h
  · exact ⟨_, loop_title cfg inp s.1 s.2 h⟩
  · rw [loop_instructions cfg inp s.1 s.2 h]
    unfold App_GuessTheColor_handleInstructionsScreen
    by_cases hTap : inp.boosterpackS2 = true
    · simp only [hTap, if_true, hv]
      exact ⟨_, rfl⟩
    · simp only [hTap, Bool.false_eq_true, if_false]
      exact ⟨_, rfl⟩
  · exact ⟨_, loop_game cfg inp s.1 s.2 h⟩
  · exact ⟨_, loop_result cfg inp s.1 s.2 h⟩

/-- Witness for C24: the sample session at the start of its first round. -/
theorem reachable_ranges_witness :
    sampleRoundSession.1.cursor < NUM_TEST_OPTIONS
      ∧ 0 ≤ sampleRoundSession.1.randomNumberChoice
      ∧ sampleRoundSession.1.randomNumberChoice < NUM_RANDOM_NUMBERS
      ∧ (∃ (v : Int), randomNumbersAt sampleRoundSession.1.randomNumbers
          sampleRoundSession.1.randomNumberChoice = some v)
      ∧ (∀ (inp : Inputs), ∃ (s1 : App_GuessTheColor × HAL),
          App_GuessTheColor_loop sampleConfig inp sampleRoundSession.1 sampleRoundSession.2
            = some s1) :=
  reachable_ranges sampleConfig sampleRoundSession
    ⟨{ counter := 100, rollovers := 0 }, sampleHAL, [sampleLateTick, tapS2 ⟨90, 1⟩], rfl⟩

/-! ## Both buttons in one iteration, and the selection flags -/

/-- C25: on the game screen an iteration with both S2 and S1 tapped does what a
move-only iteration followed by a select-only iteration does: the cursor goes to
`(c + 1) % 4` first and the select acts on that entry. From cursor 2 it ends on the
result screen with `blueSelected` as it was; from cursor 3 it stays on the game screen
with the cursor on 0 and `redSelected` set. -/
theorem gameScreen_both_buttons (cfg : TimerConfig) (hw : HwReading)
    (app : App_GuessTheColor) (hal : HAL) (hS : app.state = GAME_SCREEN) :
    App_GuessTheColor_loop cfg (tapBoth hw) app hal
        = mainLoop cfg [tapS2 hw, tapS1 hw] (app, hal)
      ∧ (∃ (s1 : App_GuessTheColor × HAL),
          App_GuessTheColor_loop cfg (tapBoth hw) app hal = some s1
            ∧ (s1.1.cursor = (app.cursor + 1) % 4)
            ∧ (app.cursor = 2 →
                s1.1.state = RESULT_SCREEN ∧ s1.1.blueSelected = app.blueSelected
                  ∧ s1.1.redSelected = app.redSelected
                  ∧ s1.1.greenSelected = app.greenSelected)
            ∧ (app.cursor = 3 →
                s1.1.state = GAME_SCREEN ∧ s1.1.redSelected = true
                  ∧ s1.1.greenSelected = app.greenSelected
                  ∧ s1.1.blueSelected = app.blueSelected)) := by
  constructor
  · rw [loop_game cfg _ app hal hS]
    have hmove : App_GuessTheColor_loop cfg (tapS2 hw) app hal
        = some (handleGameScreenMove (tapBoth hw) app hal) := by
      rw [loop_game cfg _ app hal hS]
      simp [App_GuessTheColor_handleGameScreen, handleGameScreenMove,
        handleGameScreenSelect, tapS2, tapBoth]
    have hS1 : (handleGameScreenMove (tapBoth hw) app hal).1.state = GAME_SCREEN := by
      rw [(handleGameScreenMove_frame (tapBoth hw) app hal).1, hS]
    simp only [mainLoop, hmove]
    rw [loop_game cfg _ _ _ hS1]
    simp [App_GuessTheColor_handleGameScreen, handleGameScreenMove,
      handleGameScreenSelect, tapS1, tapBoth]
  · rw [loop_game cfg _ app hal hS]
    refine ⟨_, rfl, ?_, ?_, ?_⟩
    · simp only [App_GuessTheColor_handleGameScreen, handleGameScreenMove,
        handleGameScreenSelect, tapBoth, NUM_TEST_OPTIONS, if_true]
      split_ifs <;> rfl
    · intro hc
      simp [App_GuessTheColor_handleGameScreen, handleGameScreenMove,
        handleGameScreenSelect, tapBoth, hc, NUM_TEST_OPTIONS, CURSOR_0, CURSOR_1,
        CURSOR_2, CURSOR_3]
    · intro hc
      simp [App_GuessTheColor_handleGameScreen, handleGameScreenMove,
        handleGameScreenSelect, tapBoth, hc, hS, NUM_TEST_OPTIONS, CURSOR_0]

/-- Witness for C25: the sample game session with the cursor on Blue. -/
theorem gameScreen_both_buttons_witness :
    App_GuessTheColor_loop sampleConfig (tapBoth ⟨60, 2⟩) (sampleGameSession 2).1
          (sampleGameSession 2).2
        = mainLoop sampleConfig [tapS2 ⟨60, 2⟩, tapS1 ⟨60, 2⟩]
            ((sampleGameSession 2).1, (sampleGameSession 2).2)
      ∧ (∃ (s1 : App_GuessTheColor × HAL),
          App_GuessTheColor_loop sampleConfig (tapBoth ⟨60, 2⟩) (sampleGameSession 2).1
              (sampleGameSession 2).2 = some s1
            ∧ (s1.1.cursor = ((sampleGameSession 2).1.cursor + 1) % 4)
            ∧ ((sampleGameSession 2).1.cursor = 2 →
                s1.1.state = RESULT_SCREEN
                  ∧ s1.1.blueSelected = (sampleGameSession 2).1.blueSelected
                  ∧ s1.1.redSelected = (sampleGameSession 2).1.redSelected
                  ∧ s1.1.greenSelected = (sampleGameSession 2).1.greenSelected)
            ∧ ((sampleGameSession 2).1.cursor = 3 →
                s1.1.state = GAME_SCREEN ∧ s1.1.redSelected = true
                  ∧ s1.1.greenSelected = (sampleGameSession 2).1.greenSelected
                  ∧ s1.1.blueSelected = (sampleGameSession 2).1.blueSelected)) :=
  gameScreen_both_buttons sampleConfig ⟨60, 2⟩ (sampleGameSession 2).1
    (sampleGameSession 2).2 rfl

/-- The select step sets flags and clears none. -/
theorem handleGameScreenSelect_flags (cfg : TimerConfig) (inp : Inputs)
    (app : App_GuessTheColor) (hal : HAL) :
    (app.redSelected = true → (handleGameScreenSelect cfg inp app hal).1.redSelected = true)
      ∧ (app.greenSelected = true →
          (handleGameScreenSelect cfg inp app hal).1.greenSelected = true)
      ∧ (app.blueSelected = true →
          (handleGameScreenSelect cfg inp app hal).1.blueSelected = true) := by
  unfold handleGameScreenSelect
  split_ifs <;> simp

/-- The move step changes no flag. -/
theorem handleGameScreenMove_flags (inp : Inputs) (app : App_GuessTheColor) (hal : HAL) :
    (handleGameScreenMove inp app hal).1.redSelected = app.redSelected
      ∧ (handleGameScreenMove inp app hal).1.greenSelected = app.greenSelected
      ∧ (handleGameScreenMove inp app hal).1.blueSelected = app.blueSelected := by
  unfold handleGameScreenMove
  split_ifs <;> exact ⟨rfl, rfl, rfl⟩

/-- The advance to the game screen changes no flag. -/
theorem handleInstructionsScreen_flags (inp : Inputs) (app : App_GuessTheColor)
    (hal : HAL) (s1 : App_GuessTheColor × HAL)
    (h : App_GuessTheColor_handleInstructionsScreen inp app hal = some s1) :
    s1.1.redSelected = app.redSelected ∧ s1.1.greenSelected = app.greenSelected
      ∧ s1.1.blueSelected = app.blueSelected := by
  unfold App_GuessTheColor_handleInstructionsScreen at h
  split at h
  · dsimp only at h
    cases hv : randomNumbersAt app.randomNumbers app.randomNumberChoice with
    | none => simp [hv] at h
    | some v =>
      simp only [hv, Option.some.injEq] at h
      subst h
      exact ⟨rfl, rfl, rfl⟩
  · simp only [Option.some.injEq] at h
    subst h
    exact ⟨rfl, rfl, rfl⟩

/-- An iteration that is not the reset after the result screen clears no flag. -/
theorem loop_flags_kept (cfg : TimerConfig) (inp : Inputs) (app : App_GuessTheColor)
    (hal : HAL) (s1 : App_GuessTheColor × HAL)
    (h : App_GuessTheColor_loop cfg inp app hal = some s1)
    (hne : ¬ (app.state = RESULT_SCREEN ∧ s1.1.state = INSTRUCTIONS_SCREEN)) :
    (app.redSelected = true → s1.1.redSelected = true)
      ∧ (app.greenSelected = true → s1.1.greenSelected = true)
      ∧ (app.blueSelected = true → s1.1.blueSelected = true) := by
  have hcases : app.state = TITLE_SCREEN ∨ app.state = INSTRUCTIONS_SCREEN
      ∨ app.state = GAME_SCREEN ∨ app.state = RESULT_SCREEN ∨ 4 ≤ app.state := by
    unfold TITLE_SCREEN INSTRUCTIONS_SCREEN GAME_SCREEN RESULT_SCREEN
    omega
  rcases hcases with h' | h' | h' | h' | h'
  · rw [loop_title cfg inp app hal h', Option.some.injEq] at h
    subst h
    rw [(handleTitleScreen_frame cfg inp app hal).1]
    exact ⟨id, id, id⟩
  · rw [loop_instructions cfg inp app hal h'] at h
    obtain ⟨f1, f2, f3⟩ := handleInstructionsScreen_flags inp app hal s1 h
    rw [f1, f2, f3]
    exact ⟨id, id, id⟩
  · rw [loop_game cfg inp app hal h', Option.some.injEq] at h
    subst h
    unfold App_GuessTheColor_handleGameScreen
    obtain ⟨m1, m2, m3⟩ := handleGameScreenMove_flags inp app hal
    obtain ⟨g1, g2, g3⟩ := handleGameScreenSelect_flags cfg inp
      (handleGameScreenMove inp app hal).1 (handleGameScreenMove inp app hal).2
    rw [m1] at g1
    rw [m2] at g2
    rw [m3] at g3
    exact ⟨g1, g2, g3⟩
  · rw [loop_result cfg inp app hal h', Option.some.injEq] at h
    subst h
    rcases (handleResultScreen_frame cfg inp app hal).1 with hs | hs
    · rw [hs]
      exact ⟨id, id, id⟩
    · exact absurd ⟨h', hs⟩ hne
  · rw [loop_other cfg inp app hal h', Option.some.injEq] at h
    subst h
    exact ⟨id, id, id⟩

/-- C26: an iteration on the game screen, whatever the buttons, keeps every selection
flag that is true; and an iteration of any screen that turns a true flag into false is
the reset from the result screen to the instructions screen. -/
theorem gameScreen_flags_kept (cfg : TimerConfig) (inp : Inputs) (app : App_GuessTheColor)
    (hal : HAL) (hS : app.state = GAME_SCREEN) :
    (∃ (s1 : App_GuessTheColor × HAL),
      App_GuessTheColor_loop cfg inp app hal = some s1
        ∧ (app.redSelected = true → s1.1.redSelected = true)
        ∧ (app.greenSelected = true → s1.1.greenSelected = true)
        ∧ (app.blueSelected = true → s1.1.blueSelected = true))
      ∧ (∀ (inp1 : Inputs) (app1 : App_GuessTheColor) (hal1 : HAL)
          (s1 : App_GuessTheColor × HAL),
          App_GuessTheColor_loop cfg inp1 app1 hal1 = some s1 →
          ((app1.redSelected = true ∧ s1.1.redSelected = false)
            ∨ (app1.greenSelected = true ∧ s1.1.greenSelected = false)
            ∨ (app1.blueSelected = true ∧ s1.1.blueSelected = false)) →
          app1.state = RESULT_SCREEN ∧ s1.1.state = INSTRUCTIONS_SCREEN
            ∧ s1.1.redSelected = false ∧ s1.1.greenSelected = false
            ∧ s1.1.blueSelected = false) := by
  constructor
  · have hstep := loop_game cfg inp app hal hS
    have hne : ¬ (app.state = RESULT_SCREEN
        ∧ (App_GuessTheColor_handleGameScreen cfg inp app hal).1.state
          = INSTRUCTIONS_SCREEN) := by
      rw [hS]
      intro hc
      exact absurd hc.1 (by decide)
    exact ⟨_, hstep, loop_flags_kept cfg inp app hal _ hstep hne⟩
  · intro inp1 app1 hal1 s1 hstep hclear
    by_cases hreset : app1.state = RESULT_SCREEN ∧ s1.1.state = INSTRUCTIONS_SCREEN
    · refine ⟨hreset.1, hreset.2, ?_⟩
      rw [loop_result cfg inp1 app1 hal1 hreset.1, Option.some.injEq] at hstep
      subst hstep
      unfold App_GuessTheColor_handleResultScreen at hclear ⊢
      by_cases he : SWTimer_expired cfg inp1.hw app1.timer = true
      · simp [he, App_GuessTheColor_initGameVariables]
      · simp [he] at hclear
    · obtain ⟨k1, k2, k3⟩ := loop_flags_kept cfg inp1 app1 hal1 s1 hstep hreset
      rcases hclear with hc | hc | hc
      · rw [k1 hc.1] at hc
        exact absurd hc.2 (by decide)
      · rw [k2 hc.1] at hc
        exact absurd hc.2 (by decide)
      · rw [k3 hc.1] at hc
        exact absurd hc.2 (by decide)

/-- Witness for C26: the sample game session, Green selected, with both buttons tapped. -/
theorem gameScreen_flags_kept_witness :
    (∃ (s1 : App_GuessTheColor × HAL),
      App_GuessTheColor_loop sampleConfig (tapBoth ⟨60, 2⟩) (sampleGameSession 0).1
          (sampleGameSession 0).2 = some s1
        ∧ ((sampleGameSession 0).1.redSelected = true → s1.1.redSelected = true)
        ∧ ((sampleGameSession 0).1.greenSelected = true → s1.1.greenSelected = true)
        ∧ ((sampleGameSession 0).1.blueSelected = true → s1.1.blueSelected = true))
      ∧ (∀ (inp1 : Inputs) (app1 : App_GuessTheColor) (hal1 : HAL)
          (s1 : App_GuessTheColor × HAL),
          App_GuessTheColor_loop sampleConfig inp1 app1 hal1 = some s1 →
          ((app1.redSelected = true ∧ s1.1.redSelected = false)
            ∨ (app1.greenSelected = true ∧ s1.1.greenSelected = false)
            ∨ (app1.blueSelected = true ∧ s1.1.blueSelected = false)) →
          app1.state = RESULT_SCREEN ∧ s1.1.state = INSTRUCTIONS_SCREEN
            ∧ s1.1.redSelected = false ∧ s1.1.greenSelected = false
            ∧ s1.1.blueSelected = false) :=
  gameScreen_flags_kept sampleConfig (tapBoth ⟨60, 2⟩) (sampleGameSession 0).1
    (sampleGameSession 0).2 rfl

/-! ## The rollover counter -/

theorem irqHandler_eq (r : Nat) : T32_INT1_IRQHandler r = (r + 1) % 2 ^ 64 := by
  unfold T32_INT1_IRQHandler add64
  rw [← toU64_natCast]
  push_cast
  rfl

theorem timerStep_rollovers (cfg : TimerConfig) (e : TimerEvent) (m : TimerMachine)
    (he : e ≠ TimerEvent.irq) : (timerStep cfg e m).hw.rollovers = m.hw.rollovers := by
  cases e <;> first | rfl | exact absurd rfl he

theorem timerRun_rollovers (cfg : TimerConfig) (es : List TimerEvent) :
    ∀ (m : TimerMachine), m.hw.rollovers < 2 ^ 64 →
      (timerRun cfg es m).hw.rollovers = (m.hw.rollovers + irqCount es) % 2 ^ 64 := by
  induction es with
  | nil =>
    intro m hr
    simp only [timerRun, irqCount, add_zero]
    exact (Nat.mod_eq_of_lt hr).symm
  | cons e rest ih =>
    intro m hr
    by_cases he : e = TimerEvent.irq
    · subst he
      have hs : (timerStep cfg TimerEvent.irq m).hw.rollovers
          = (m.hw.rollovers + 1) % 2 ^ 64 := irqHandler_eq m.hw.rollovers
      have hlt : (timerStep cfg TimerEvent.irq m).hw.rollovers < 2 ^ 64 := by
        rw [hs]
        exact Nat.mod_lt _ (by norm_num)
      simp only [timerRun, irqCount]
      rw [ih _ hlt, hs]
      omega
    · have hs := timerStep_rollovers cfg e m he
      have hcount : irqCount (e :: rest) = irqCount rest := by
        cases e <;> first | rfl | exact absurd rfl he
      simp only [timerRun]
      rw [ih _ (by rw [hs]; exact hr), hs, hcount]

/-- C21, the claim as stated fails at the largest counter value: there the handler
takes `hwTimerRollovers` from `2 ^ 64 - 1` to 0, not to one more. -/
theorem irqHandler_wraps_at_max :
    T32_INT1_IRQHandler (2 ^ 64 - 1) = 0
      ∧ T32_INT1_IRQHandler (2 ^ 64 - 1) ≠ (2 ^ 64 - 1) + 1 := by
  decide

/-- C21, amended: each call of `T32_INT1_IRQHandler` adds 1 to `hwTimerRollovers`
modulo `2 ^ 64`, exactly 1 while the counter stays below `2 ^ 64`; so after any
sequence of events with `n` interrupts the counter read is the earlier one plus `n`
modulo `2 ^ 64`, exactly plus `n` while that stays below `2 ^ 64` (also for no and for
one interrupt); and no event other than the interrupt, in particular none of the six
timer functions, changes the counter. -/
theorem rollovers_after_events (cfg : TimerConfig) (es : List TimerEvent) (m : TimerMachine)
    (hr : m.hw.rollovers < 2 ^ 64) :
    T32_INT1_IRQHandler m.hw.rollovers = (m.hw.rollovers + 1) % 2 ^ 64
      ∧ (m.hw.rollovers + 1 < 2 ^ 64 →
          T32_INT1_IRQHandler m.hw.rollovers = m.hw.rollovers + 1)
      ∧ (timerRun cfg es m).hw.rollovers = (m.hw.rollovers + irqCount es) % 2 ^ 64
      ∧ (m.hw.rollovers + irqCount es < 2 ^ 64 →
          (timerRun cfg es m).hw.rollovers = m.hw.rollovers + irqCount es)
      ∧ (irqCount es = 0 → (timerRun cfg es m).hw.rollovers = m.hw.rollovers)
      ∧ (∀ (e : TimerEvent), e ≠ TimerEvent.irq →
          (timerStep cfg e m).hw.rollovers = m.hw.rollovers) := by
  have hrun := timerRun_rollovers cfg es m hr
  refine ⟨irqHandler_eq _, ?_, hrun, ?_, ?_, ?_⟩
  · intro h
    rw [irqHandler_eq, Nat.mod_eq_of_lt h]
  · intro h
    rw [hrun, Nat.mod_eq_of_lt h]
  · intro h
    rw [hrun, h, add_zero, Nat.mod_eq_of_lt hr]
  · intro e he
    exact timerStep_rollovers cfg e m he

/-- Witness for C21: three interrupts among reads, a start and a counter change. -/
theorem rollovers_after_events_witness :
    (timerRun sampleConfig
        [TimerEvent.expired, TimerEvent.irq, TimerEvent.start, TimerEvent.irq,
          TimerEvent.hwCount 12, TimerEvent.percentElapsed, TimerEvent.irq]
        { hw := ⟨500, 41⟩, timer := SWTimer_construct sampleConfig 1000 }).hw.rollovers
      = 41 + 3 :=
  (rollovers_after_events sampleConfig
    [TimerEvent.expired, TimerEvent.irq, TimerEvent.start, TimerEvent.irq,
      TimerEvent.hwCount 12, TimerEvent.percentElapsed, TimerEvent.irq]
    { hw := ⟨500, 41⟩, timer := SWTimer_construct sampleConfig 1000 }
    (by decide)).2.2.2.1 (by decide)

/-! ## Elapsed cycles without wrap-around -/

theorem toU64_cast_of_range {z : Int} (h0 : 0 ≤ z) (h1 : z < 2 ^ 64) :
    ((toU64 z : Nat) : Int) = z := by
  rw [toU64_cast]
  exact Int.emod_eq_of_lt h0 h1

/-- The last step of `SWTimer_elapsedCyclesSteps` is the value `SWTimer_elapsedCycles`
reduces. -/
theorem elapsedCycles_eq_last_step (cfg : TimerConfig) (hw : HwReading) (timer : SWTimer) :
    (SWTimer_elapsedCyclesSteps cfg hw timer).getLast? = some
        (((add64 (mul64 (sub64 hw.rollovers timer.startRollovers)
            (toU64 ((cfg.LOADVALUE : Int) + 1))) (toU64 (timer.startCounter : Int)) : Nat) : Int)
          - ((toU64 (hw.counter : Int) : Nat) : Int))
      ∧ SWTimer_elapsedCycles cfg hw timer
        = toU64 (((add64 (mul64 (sub64 hw.rollovers timer.startRollovers)
            (toU64 ((cfg.LOADVALUE : Int) + 1))) (toU64 (timer.startCounter : Int)) : Nat) : Int)
          - ((toU64 (hw.counter : Int) : Nat) : Int)) :=
  ⟨rfl, rfl⟩

/-- For a reading at or after the start snapshot the exact number of elapsed cycles is
not negative, and the code returns it when it is below `2 ^ 64`. -/
theorem elapsedCycles_of_later (cfg : TimerConfig) (timer : SWTimer) (start now : HwReading)
    (hc1 : now.counter ≤ cfg.LOADVALUE)
    (hLater : start.rollovers < now.rollovers
      ∨ (start.rollovers = now.rollovers ∧ now.counter ≤ start.counter))
    (hN : ((now.rollovers : Int) - (start.rollovers : Int)) * ((cfg.LOADVALUE : Int) + 1)
        + (start.counter : Int) - (now.counter : Int) < 2 ^ 64) :
    0 ≤ ((now.rollovers : Int) - (start.rollovers : Int)) * ((cfg.LOADVALUE : Int) + 1)
          + (start.counter : Int) - (now.counter : Int)
      ∧ ((SWTimer_elapsedCycles cfg now (SWTimer_start start timer) : Nat) : Int)
        = ((now.rollovers : Int) - (start.rollovers : Int)) * ((cfg.LOADVALUE : Int) + 1)
          + (start.counter : Int) - (now.counter : Int) := by
  have h0 : 0 ≤ ((now.rollovers : Int) - (start.rollovers : Int)) * ((cfg.LOADVALUE : Int) + 1)
      + (start.counter : Int) - (now.counter : Int) := by
    rcases hLater with h | ⟨h, hc⟩
    · have ha : (1 : Int) ≤ (now.rollovers : Int) - (start.rollovers : Int) := by omega
      have hK : (0 : Int) ≤ (cfg.LOADVALUE : Int) + 1 := by omega
      have hP := le_mul_of_one_le_left hK ha
      omega
    · rw [h]
      simp only [sub_self, zero_mul, zero_add]
      omega
  refine ⟨h0, ?_⟩
  rw [elapsedCycles_eq]
  exact toU64_cast_of_range h0 hN

/-- No operation of `SWTimer_elapsedCycles` wraps around when the reading is at or after
the start snapshot and the product plus the start counter stays below `2 ^ 64`. -/
theorem elapsedCyclesSteps_fit (cfg : TimerConfig) (timer : SWTimer) (start now : HwReading)
    (hc1 : now.counter ≤ cfg.LOADVALUE)
    (hLater : start.rollovers < now.rollovers
      ∨ (start.rollovers = now.rollovers ∧ now.counter ≤ start.counter))
    (hB : ((now.rollovers : Int) - (start.rollovers : Int)) * ((cfg.LOADVALUE : Int) + 1)
        + (start.counter : Int) < 2 ^ 64) :
    ∀ z ∈ SWTimer_elapsedCyclesSteps cfg now (SWTimer_start start timer),
      0 ≤ z ∧ z < 2 ^ 64 := by
  have ha0 : (0 : Int) ≤ (now.rollovers : Int) - (start.rollovers : Int) := by omega
  have hK1 : (1 : Int) ≤ (cfg.LOADVALUE : Int) + 1 := by omega
  have hP0 : 0 ≤ ((now.rollovers : Int) - (start.rollovers : Int))
      * ((cfg.LOADVALUE : Int) + 1) := mul_nonneg ha0 (by omega)
  have haP : (now.rollovers : Int) - (start.rollovers : Int)
      ≤ ((now.rollovers : Int) - (start.rollovers : Int)) * ((cfg.LOADVALUE : Int) + 1) :=
    le_mul_of_one_le_right ha0 hK1
  have hN0 : 0 ≤ ((now.rollovers : Int) - (start.rollovers : Int))
      * ((cfg.LOADVALUE : Int) + 1) + (start.counter : Int) - (now.counter : Int) :=
    (elapsedCycles_of_later cfg timer start now hc1 hLater (by omega)).1
  have e1 : ((toU64 ((now.rollovers : Int) - (start.rollovers : Int)) : Nat) : Int)
      = (now.rollovers : Int) - (start.rollovers : Int) :=
    toU64_cast_of_range ha0 (by omega)
  have e2 : ((toU64 ((now.rollovers : Int) - (start.rollovers : Int)) : Nat) : Int)
        * ((toU64 ((cfg.LOADVALUE : Int) + 1) : Nat) : Int)
      = ((now.rollovers : Int) - (start.rollovers : Int)) * ((cfg.LOADVALUE : Int) + 1) := by
    rw [e1]
    rcases hLater with h | ⟨h, -⟩
    · have ha : (1 : Int) ≤ (now.rollovers : Int) - (start.rollovers : Int) := by omega
      have hKP := le_mul_of_one_le_left (by omega : (0 : Int) ≤ (cfg.LOADVALUE : Int) + 1) ha
      rw [toU64_cast_of_range (by omega) (by omega)]
    · rw [h]
      simp
  have e3 : ((toU64 (((toU64 ((now.rollovers : Int) - (start.rollovers : Int)) : Nat) : Int)
        * ((toU64 ((cfg.LOADVALUE : Int) + 1) : Nat) : Int)) : Nat) : Int)
      = ((now.rollovers : Int) - (start.rollovers : Int)) * ((cfg.LOADVALUE : Int) + 1) := by
    rw [e2]
    exact toU64_cast_of_range hP0 (by omega)
  have e4 : ((toU64 (start.counter : Int) : Nat) : Int) = (start.counter : Int) :=
    toU64_cast_of_range (by omega) (by omega)
  have e5 : ((toU64 (((now.rollovers : Int) - (start.rollovers : Int))
        * ((cfg.LOADVALUE : Int) + 1) + (start.counter : Int)) : Nat) : Int)
      = ((now.rollovers : Int) - (start.rollovers : Int)) * ((cfg.LOADVALUE : Int) + 1)
        + (start.counter : Int) :=
    toU64_cast_of_range (by omega) hB
  have e6 : ((toU64 (now.counter : Int) : Nat) : Int) = (now.counter : Int) :=
    toU64_cast_of_range (by omega) (by omega)
  intro z hz
  simp only [SWTimer_elapsedCyclesSteps, SWTimer_start, sub64, mul64, add64, List.mem_cons,
    List.mem_singleton, List.not_mem_nil, or_false] at hz
  rcases hz with hz | hz | hz | hz
  · rw [hz]
    omega
  · rw [hz, e2]
    omega
  · rw [hz, e3, e4]
    omega
  · rw [hz, e3, e4, e5, e6]
    omega

/-- C23, the claim as stated fails near the top of the range: on the sample clock, for
the snapshot `(0, 0)` and the later reading `(LOADVALUE, 2 ^ 32)`, both counters within
`[0, LOADVALUE]`, the exact number of elapsed cycles is below `2 ^ 64` and is the value
returned, yet an intermediate operation wraps around (the product is `2 ^ 64`). -/
theorem elapsedCycles_step_wraps :
    (0 : Nat) ≤ sampleConfig.LOADVALUE
      ∧ (4294967295 : Nat) ≤ sampleConfig.LOADVALUE
      ∧ (0 : Nat) < 4294967296
      ∧ ((4294967296 : Int) - 0) * ((sampleConfig.LOADVALUE : Int) + 1) + 0 - 4294967295
          < 2 ^ 64
      ∧ ((SWTimer_elapsedCycles sampleConfig ⟨4294967295, 4294967296⟩
            (SWTimer_start ⟨0, 0⟩ (SWTimer_construct sampleConfig 1000)) : Nat) : Int)
          = ((4294967296 : Int) - 0) * ((sampleConfig.LOADVALUE : Int) + 1) + 0 - 4294967295
      ∧ ¬ (∀ z ∈ SWTimer_elapsedCyclesSteps sampleConfig ⟨4294967295, 4294967296⟩
            (SWTimer_start ⟨0, 0⟩ (SWTimer_construct sampleConfig 1000)),
          0 ≤ z ∧ z < 2 ^ 64) := by
  decide

/-- C23, amended: for a started timer and a reading at or after its snapshot, with
the current counter within `[0, LOADVALUE]`, `SWTimer_elapsedCycles` returns the exact
number `(r1 - r0) * (LOADVALUE + 1) + c0 - c1` whenever that number is below `2 ^ 64`;
no intermediate operation wraps around whenever `(r1 - r0) * (LOADVALUE + 1) + c0` is
below `2 ^ 64`; and the value does not decrease when the reading advances, also across
counter rollovers, as long as the exact number stays below `2 ^ 64`. -/
theorem elapsedCycles_exact_monotone (cfg : TimerConfig) (timer : SWTimer)
    (start now : HwReading)
    (hc1 : now.counter ≤ cfg.LOADVALUE)
    (hLater : start.rollovers < now.rollovers
      ∨ (start.rollovers = now.rollovers ∧ now.counter ≤ start.counter))
    (hN : ((now.rollovers : Int) - (start.rollovers : Int)) * ((cfg.LOADVALUE : Int) + 1)
        + (start.counter : Int) - (now.counter : Int) < 2 ^ 64) :
    0 ≤ ((now.rollovers : Int) - (start.rollovers : Int)) * ((cfg.LOADVALUE : Int) + 1)
          + (start.counter : Int) - (now.counter : Int)
      ∧ ((SWTimer_elapsedCycles cfg now (SWTimer_start start timer) : Nat) : Int)
        = ((now.rollovers : Int) - (start.rollovers : Int)) * ((cfg.LOADVALUE : Int) + 1)
          + (start.counter : Int) - (now.counter : Int)
      ∧ (((now.rollovers : Int) - (start.rollovers : Int)) * ((cfg.LOADVALUE : Int) + 1)
            + (start.counter : Int) < 2 ^ 64 →
          ∀ z ∈ SWTimer_elapsedCyclesSteps cfg now (SWTimer_start start timer),
            0 ≤ z ∧ z < 2 ^ 64)
      ∧ (∀ (next : HwReading), next.counter ≤ cfg.LOADVALUE →
          (now.rollovers < next.rollovers
            ∨ (now.rollovers = next.rollovers ∧ next.counter ≤ now.counter)) →
          ((next.rollovers : Int) - (start.rollovers : Int)) * ((cfg.LOADVALUE : Int) + 1)
            + (start.counter : Int) - (next.counter : Int) < 2 ^ 64 →
          SWTimer_elapsedCycles cfg now (SWTimer_start start timer)
            ≤ SWTimer_elapsedCycles cfg next (SWTimer_start start timer)) := by
  obtain ⟨h0, hv⟩ := elapsedCycles_of_later cfg timer start now hc1 hLater hN
  refine ⟨h0, hv, ?_, ?_⟩
  · intro hB
    exact elapsedCyclesSteps_fit cfg timer start now hc1 hLater hB
  · intro next hc2 hNext hN2
    have hLater2 : start.rollovers < next.rollovers
        ∨ (start.rollovers = next.rollovers ∧ next.counter ≤ start.counter) := by omega
    obtain ⟨-, hv2⟩ := elapsedCycles_of_later cfg timer start next hc2 hLater2 hN2
    have hsplit : ((next.rollovers : Int) - (start.rollovers : Int))
          * ((cfg.LOADVALUE : Int) + 1)
        = ((now.rollovers : Int) - (start.rollovers : Int)) * ((cfg.LOADVALUE : Int) + 1)
          + ((next.rollovers : Int) - (now.rollovers : Int)) * ((cfg.LOADVALUE : Int) + 1) := by
      ring
    have hle : ((SWTimer_elapsedCycles cfg now (SWTimer_start start timer) : Nat) : Int)
        ≤ ((SWTimer_elapsedCycles cfg next (SWTimer_start start timer) : Nat) : Int) := by
      rw [hv, hv2, hsplit]
      rcases hNext with h | ⟨h, hc⟩
      · have ha : (1 : Int) ≤ (next.rollovers : Int) - (now.rollovers : Int) := by omega
        have hKP := le_mul_of_one_le_left
          (by omega : (0 : Int) ≤ (cfg.LOADVALUE : Int) + 1) ha
        omega
      · rw [h]
        simp only [sub_self, zero_mul, add_zero]
        omega
    exact_mod_cast hle

/-- Witness for C23: the sample timer started ten counts before a rollover and read
48 000 000 cycles later. -/
theorem elapsedCycles_exact_monotone_witness :
    ((SWTimer_elapsedCycles sampleConfig ⟨4246967306, 4⟩
        (SWTimer_start ⟨10, 3⟩ (SWTimer_construct sampleConfig 1000)) : Nat) : Int)
      = ((4 : Int) - 3) * ((sampleConfig.LOADVALUE : Int) + 1) + 10 - 4246967306 :=
  (elapsedCycles_exact_monotone sampleConfig (SWTimer_construct sampleConfig 1000)
    ⟨10, 3⟩ ⟨4246967306, 4⟩ (by decide) (Or.inl (by decide)) (by decide)).2.1

end GuessTheColor
